import Mathlib

/-!
Shallow embedding of the core of a Game Boy (DMG) emulator, translated from
the C++ sources (cpu.cpp / cpu.h, memory.cpp / memory.h, ppu.cpp / ppu.h,
apu.cpp / apu.h, gameboy.cpp, main.cpp).

Machine bytes are modelled as Nat with explicit masks (x &&& 0xFF, % 256)
exactly where the C++ performs implicit uint8_t / uint16_t conversions.
Byte arrays are modelled as total functions Nat → Nat updated with
Function.update.  Every definition mirrors the corresponding C++ function;
deviations forced by the purely functional setting (threading the memory
reference, omitting the framebuffer) are recorded in the doc comments.
-/

/-! ## PPU (ppu.cpp / ppu.h)

The PPU control state.  The C++ class additionally holds the 160x144
framebuffer and the internal window-line counter; both are written only by
the scanline rasteriser (renderScanline and its helpers), which reads but
never writes any of the fields below, so they are outside this control-state
model.  The memory reference held by the C++ PPU is threaded explicitly: the
operations that touch the I/O register file (checkSTATInterrupt raising IF,
step writing LY to io 0x44) take the io array and return the updated one. -/
structure PPUState where
  lcdc : Nat
  stat : Nat
  scy : Nat
  scx : Nat
  ly : Nat
  lyc : Nat
  wy : Nat
  wx : Nat
  bgp : Nat
  obp0 : Nat
  obp1 : Nat
  scanlineCycles : Nat
  mode : Nat
  frameReady : Bool
  deriving Repr

/-- PPU::reset, also the state established by the PPU constructor. -/
def PPU.reset : PPUState :=
  { lcdc := 0x91, stat := 0x00, scy := 0, scx := 0, ly := 0, lyc := 0,
    wy := 0, wx := 0, bgp := 0xFC, obp0 := 0xFF, obp1 := 0xFF,
    scanlineCycles := 0, mode := 2, frameReady := false }

/-- PPU::checkSTATInterrupt: raise IF bit 1 (INT_STAT = 0x02) in the io file
when an enabled STAT condition holds.  Returns the updated io array
(memory.setIF in the C++). -/
def PPU.checkSTATInterrupt (p : PPUState) (io : Nat → Nat) : Nat → Nat :=
  let interrupt :=
    (p.stat &&& 0x20 ≠ 0 ∧ p.mode = 2) ∨
    (p.stat &&& 0x10 ≠ 0 ∧ p.mode = 1) ∨
    (p.stat &&& 0x08 ≠ 0 ∧ p.mode = 0) ∨
    (p.stat &&& 0x40 ≠ 0 ∧ p.stat &&& 0x04 ≠ 0)
  if interrupt then Function.update io 0x0F (io 0x0F ||| 0x02) else io

/-- PPU::setMode: store the new mode in the low two STAT bits, then run
checkSTATInterrupt. -/
def PPU.setMode (p : PPUState) (io : Nat → Nat) (newMode : Nat) :
    PPUState × (Nat → Nat) :=
  let p := { p with mode := newMode,
                    stat := (p.stat &&& 0xFC) ||| (newMode &&& 0x03) }
  (p, PPU.checkSTATInterrupt p io)

/-- PPU::checkLYC: update the coincidence flag (STAT bit 2) from LY = LYC and
run checkSTATInterrupt.  The C++ clears the flag with stat &= ~0x04 on a
uint8_t, which is stat &&& 0xFB on byte values. -/
def PPU.checkLYC (p : PPUState) (io : Nat → Nat) : PPUState × (Nat → Nat) :=
  let p := if p.ly = p.lyc then { p with stat := p.stat ||| 0x04 }
           else { p with stat := p.stat &&& 0xFB }
  (p, PPU.checkSTATInterrupt p io)

/-- PPU::writeLCDC: on a 1 to 0 transition of bit 7 the LCD is disabled
(LY and the scanline counter reset, mode forced to 0); the new value is
stored last in both paths, as in the source. -/
def PPU.writeLCDC (p : PPUState) (io : Nat → Nat) (val : Nat) :
    PPUState × (Nat → Nat) :=
  let wasEnabled := p.lcdc &&& 0x80 ≠ 0
  let isEnabled := val &&& 0x80 ≠ 0
  if wasEnabled ∧ ¬ isEnabled then
    let p := { p with ly := 0, scanlineCycles := 0 }
    let (p, io) := PPU.setMode p io 0
    ({ p with lcdc := val }, io)
  else ({ p with lcdc := val }, io)

/-- PPU::writeSTAT: the lower three bits are read-only. -/
def PPU.writeSTAT (p : PPUState) (val : Nat) : PPUState :=
  { p with stat := (val &&& 0x78) ||| (p.stat &&& 0x07) }

/-- PPU::writeLY: any write resets LY to 0 (the written value is ignored). -/
def PPU.writeLY (p : PPUState) : PPUState :=
  { p with ly := 0 }

/-- PPU::readSTAT: bit 7 always reads as 1. -/
def PPU.readSTAT (p : PPUState) : Nat :=
  p.stat ||| 0x80

/-- PPU::step.  First the latched register copies are refreshed from the io
file, then, if the LCD is enabled, the scanline counter advances and at most
one mode transition fires.  The mode 3 transition calls renderScanline in the
C++, which writes only the framebuffer and window-line counter (not modelled,
see PPUState); its state effect here is the setMode(0) that follows it. -/
def PPU.step (p : PPUState) (io : Nat → Nat) (cycles : Nat) :
    PPUState × (Nat → Nat) :=
  let p := { p with scy := io 0x42, scx := io 0x43, lyc := io 0x45,
                    bgp := io 0x47, obp0 := io 0x48, obp1 := io 0x49,
                    wy := io 0x4A, wx := io 0x4B, lcdc := io 0x40 }
  if p.lcdc &&& 0x80 = 0 then (p, io)
  else
    let p := { p with scanlineCycles := p.scanlineCycles + cycles }
    match p.mode with
    | 2 =>
      if 80 ≤ p.scanlineCycles then
        PPU.setMode { p with scanlineCycles := p.scanlineCycles - 80 } io 3
      else (p, io)
    | 3 =>
      if 172 ≤ p.scanlineCycles then
        PPU.setMode { p with scanlineCycles := p.scanlineCycles - 172 } io 0
      else (p, io)
    | 0 =>
      if 204 ≤ p.scanlineCycles then
        let p := { p with scanlineCycles := p.scanlineCycles - 204,
                          ly := (p.ly + 1) % 256 }
        let (p, io) :=
          if p.ly = 144 then
            let (p, io) := PPU.setMode p io 1
            let io := Function.update io 0x0F (io 0x0F ||| 0x01)
            ({ p with frameReady := true }, io)
          else PPU.setMode p io 2
        let io := Function.update io 0x44 p.ly
        PPU.checkLYC p io
      else (p, io)
    | 1 =>
      if 456 ≤ p.scanlineCycles then
        let p := { p with scanlineCycles := p.scanlineCycles - 456,
                          ly := (p.ly + 1) % 256 }
        let (p, io) :=
          if 153 < p.ly then PPU.setMode { p with ly := 0 } io 2
          else (p, io)
        let io := Function.update io 0x44 p.ly
        PPU.checkLYC p io
      else (p, io)
    | _ => (p, io)

/-! ## APU (apu.cpp / apu.h)

Channel records mirror the C++ structs field for field.  The C++ int fields
only ever hold non-negative values in the register-write and trigger paths
modelled here, so Nat is used.  The SDL audio device, the float sample
ring buffer and the mixing path (APU::step, generateSample, audioCallback)
are host-output machinery outside this model; the claims concern only the
register file and channel control state. -/
structure Channel1 where
  enabled : Bool
  frequencyTimer : Nat
  frequency : Nat
  duty : Nat
  dutyPos : Nat
  volume : Nat
  volumeInit : Nat
  envelopeTimer : Nat
  envelopePeriod : Nat
  envelopeAdd : Bool
  lengthCounter : Nat
  lengthEnabled : Bool
  sweepTimer : Nat
  sweepPeriod : Nat
  sweepNegate : Bool
  sweepShift : Nat
  shadowFreq : Nat
  sweepEnabled : Bool
  deriving Repr

structure Channel2 where
  enabled : Bool
  frequencyTimer : Nat
  frequency : Nat
  duty : Nat
  dutyPos : Nat
  volume : Nat
  volumeInit : Nat
  envelopeTimer : Nat
  envelopePeriod : Nat
  envelopeAdd : Bool
  lengthCounter : Nat
  lengthEnabled : Bool
  deriving Repr

structure Channel3 where
  enabled : Bool
  dacEnabled : Bool
  frequencyTimer : Nat
  frequency : Nat
  volume : Nat
  lengthCounter : Nat
  lengthEnabled : Bool
  samplePos : Nat
  deriving Repr

structure Channel4 where
  enabled : Bool
  frequencyTimer : Nat
  volume : Nat
  volumeInit : Nat
  envelopeTimer : Nat
  envelopePeriod : Nat
  envelopeAdd : Bool
  lengthCounter : Nat
  lengthEnabled : Bool
  lfsr : Nat
  divisor : Nat
  shift : Nat
  widthMode : Bool
  deriving Repr

structure APUState where
  registers : Nat → Nat
  waveRam : Nat → Nat
  ch1 : Channel1
  ch2 : Channel2
  ch3 : Channel3
  ch4 : Channel4
  frameSequencerCycles : Nat
  frameSequencerStep : Nat
  sampleAccumulator : Nat
  masterEnable : Bool
  masterVolume : Nat
  channelPan : Nat

/-- State established by the APU constructor followed by APU::reset (memset
zeroes the channel structs, then ch4.lfsr is set to 0x7FFF). -/
def APU.reset : APUState :=
  { registers := fun _ => 0,
    waveRam := fun _ => 0,
    ch1 := { enabled := false, frequencyTimer := 0, frequency := 0, duty := 0,
             dutyPos := 0, volume := 0, volumeInit := 0, envelopeTimer := 0,
             envelopePeriod := 0, envelopeAdd := false, lengthCounter := 0,
             lengthEnabled := false, sweepTimer := 0, sweepPeriod := 0,
             sweepNegate := false, sweepShift := 0, shadowFreq := 0,
             sweepEnabled := false },
    ch2 := { enabled := false, frequencyTimer := 0, frequency := 0, duty := 0,
             dutyPos := 0, volume := 0, volumeInit := 0, envelopeTimer := 0,
             envelopePeriod := 0, envelopeAdd := false, lengthCounter := 0,
             lengthEnabled := false },
    ch3 := { enabled := false, dacEnabled := false, frequencyTimer := 0,
             frequency := 0, volume := 0, lengthCounter := 0,
             lengthEnabled := false, samplePos := 0 },
    ch4 := { enabled := false, frequencyTimer := 0, volume := 0,
             volumeInit := 0, envelopeTimer := 0, envelopePeriod := 0,
             envelopeAdd := false, lengthCounter := 0, lengthEnabled := false,
             lfsr := 0x7FFF, divisor := 0, shift := 0, widthMode := false },
    frameSequencerCycles := 0, frameSequencerStep := 0, sampleAccumulator := 0,
    masterEnable := true, masterVolume := 0x77, channelPan := 0xFF }

/-- APU::triggerChannel1. -/
def APU.triggerChannel1 (s : APUState) : APUState :=
  let c := s.ch1
  let c := { c with enabled := true }
  let c := if c.lengthCounter = 0 then { c with lengthCounter := 64 } else c
  let c := { c with frequencyTimer := (2048 - c.frequency) * 4,
                    envelopeTimer := c.envelopePeriod,
                    volume := c.volumeInit,
                    shadowFreq := c.frequency }
  let c := { c with sweepTimer := if 0 < c.sweepPeriod then c.sweepPeriod else 8,
                    sweepEnabled := 0 < c.sweepPeriod ∨ 0 < c.sweepShift,
                    dutyPos := 0 }
  { s with ch1 := c }

/-- APU::triggerChannel2. -/
def APU.triggerChannel2 (s : APUState) : APUState :=
  let c := s.ch2
  let c := { c with enabled := true }
  let c := if c.lengthCounter = 0 then { c with lengthCounter := 64 } else c
  let c := { c with frequencyTimer := (2048 - c.frequency) * 4,
                    envelopeTimer := c.envelopePeriod,
                    volume := c.volumeInit,
                    dutyPos := 0 }
  { s with ch2 := c }

/-- APU::triggerChannel3. -/
def APU.triggerChannel3 (s : APUState) : APUState :=
  let c := s.ch3
  let c := { c with enabled := c.dacEnabled }
  let c := if c.lengthCounter = 0 then { c with lengthCounter := 256 } else c
  let c := { c with frequencyTimer := (2048 - c.frequency) * 2,
                    samplePos := 0 }
  { s with ch3 := c }

/-- APU::triggerChannel4.  The divisor table lookup mirrors the local
divisors array; ch4.divisor is always in 0..7 when set through NR43. -/
def APU.triggerChannel4 (s : APUState) : APUState :=
  let c := s.ch4
  let c := { c with enabled := true }
  let c := if c.lengthCounter = 0 then { c with lengthCounter := 64 } else c
  let c := { c with envelopeTimer := c.envelopePeriod,
                    volume := c.volumeInit,
                    lfsr := 0x7FFF }
  let c := { c with frequencyTimer :=
               ([8, 16, 32, 48, 64, 80, 96, 112].getD c.divisor 0) <<< c.shift }
  { s with ch4 := c }

/-- APU::writeRegister.  Wave RAM writes are handled first; registers outside
0xFF10 - 0xFF26 are then ignored; otherwise the byte is stored in the register
file and the per-register switch updates the channel state.  Note that no
branch consults masterEnable. -/
def APU.writeRegister (s : APUState) (reg val : Nat) : APUState :=
  if 0x30 ≤ reg ∧ reg ≤ 0x3F then
    { s with waveRam := Function.update s.waveRam (reg - 0x30) val }
  else if reg < 0x10 ∨ 0x26 < reg then s
  else
    let s := { s with registers := Function.update s.registers (reg - 0x10) val }
    if reg = 0x10 then
      { s with ch1 := { s.ch1 with sweepPeriod := (val >>> 4) &&& 0x07,
                                   sweepNegate := val &&& 0x08 ≠ 0,
                                   sweepShift := val &&& 0x07 } }
    else if reg = 0x11 then
      { s with ch1 := { s.ch1 with duty := (val >>> 6) &&& 0x03,
                                   lengthCounter := 64 - (val &&& 0x3F) } }
    else if reg = 0x12 then
      let c := { s.ch1 with volumeInit := (val >>> 4) &&& 0x0F,
                            envelopeAdd := val &&& 0x08 ≠ 0,
                            envelopePeriod := val &&& 0x07 }
      let c := if val &&& 0xF8 = 0 then { c with enabled := false } else c
      { s with ch1 := c }
    else if reg = 0x13 then
      { s with ch1 := { s.ch1 with frequency := (s.ch1.frequency &&& 0x700) ||| val } }
    else if reg = 0x14 then
      let s := { s with ch1 := { s.ch1 with
        frequency := (s.ch1.frequency &&& 0xFF) ||| ((val &&& 0x07) <<< 8),
        lengthEnabled := val &&& 0x40 ≠ 0 } }
      if val &&& 0x80 ≠ 0 then APU.triggerChannel1 s else s
    else if reg = 0x16 then
      { s with ch2 := { s.ch2 with duty := (val >>> 6) &&& 0x03,
                                   lengthCounter := 64 - (val &&& 0x3F) } }
    else if reg = 0x17 then
      let c := { s.ch2 with volumeInit := (val >>> 4) &&& 0x0F,
                            envelopeAdd := val &&& 0x08 ≠ 0,
                            envelopePeriod := val &&& 0x07 }
      let c := if val &&& 0xF8 = 0 then { c with enabled := false } else c
      { s with ch2 := c }
    else if reg = 0x18 then
      { s with ch2 := { s.ch2 with frequency := (s.ch2.frequency &&& 0x700) ||| val } }
    else if reg = 0x19 then
      let s := { s with ch2 := { s.ch2 with
        frequency := (s.ch2.frequency &&& 0xFF) ||| ((val &&& 0x07) <<< 8),
        lengthEnabled := val &&& 0x40 ≠ 0 } }
      if val &&& 0x80 ≠ 0 then APU.triggerChannel2 s else s
    else if reg = 0x1A then
      let c := { s.ch3 with dacEnabled := val &&& 0x80 ≠ 0 }
      let c := if c.dacEnabled = false then { c with enabled := false } else c
      { s with ch3 := c }
    else if reg = 0x1B then
      { s with ch3 := { s.ch3 with lengthCounter := 256 - val } }
    else if reg = 0x1C then
      { s with ch3 := { s.ch3 with volume := (val >>> 5) &&& 0x03 } }
    else if reg = 0x1D then
      { s with ch3 := { s.ch3 with frequency := (s.ch3.frequency &&& 0x700) ||| val } }
    else if reg = 0x1E then
      let s := { s with ch3 := { s.ch3 with
        frequency := (s.ch3.frequency &&& 0xFF) ||| ((val &&& 0x07) <<< 8),
        lengthEnabled := val &&& 0x40 ≠ 0 } }
      if val &&& 0x80 ≠ 0 then APU.triggerChannel3 s else s
    else if reg = 0x20 then
      { s with ch4 := { s.ch4 with lengthCounter := 64 - (val &&& 0x3F) } }
    else if reg = 0x21 then
      let c := { s.ch4 with volumeInit := (val >>> 4) &&& 0x0F,
                            envelopeAdd := val &&& 0x08 ≠ 0,
                            envelopePeriod := val &&& 0x07 }
      let c := if val &&& 0xF8 = 0 then { c with enabled := false } else c
      { s with ch4 := c }
    else if reg = 0x22 then
      { s with ch4 := { s.ch4 with shift := (val >>> 4) &&& 0x0F,
                                   widthMode := val &&& 0x08 ≠ 0,
                                   divisor := val &&& 0x07 } }
    else if reg = 0x23 then
      let s := { s with ch4 := { s.ch4 with lengthEnabled := val &&& 0x40 ≠ 0 } }
      if val &&& 0x80 ≠ 0 then APU.triggerChannel4 s else s
    else if reg = 0x24 then { s with masterVolume := val }
    else if reg = 0x25 then { s with channelPan := val }
    else if reg = 0x26 then
      let s := { s with masterEnable := val &&& 0x80 ≠ 0 }
      if s.masterEnable = false then
        { s with ch1 := { s.ch1 with enabled := false },
                 ch2 := { s.ch2 with enabled := false },
                 ch3 := { s.ch3 with enabled := false },
                 ch4 := { s.ch4 with enabled := false } }
      else s
    else s

/-- APU::readRegister: wave RAM reads back; registers outside 0xFF10 - 0xFF26
read 0xFF; NR52 is computed from masterEnable and the channel-enabled flags;
all other registers return the last stored byte. -/
def APU.readRegister (s : APUState) (reg : Nat) : Nat :=
  if 0x30 ≤ reg ∧ reg ≤ 0x3F then s.waveRam (reg - 0x30)
  else if reg < 0x10 ∨ 0x26 < reg then 0xFF
  else if reg = 0x26 then
    let status : Nat := if s.masterEnable then 0x80 else 0x00
    let status := if s.ch1.enabled then status ||| 0x01 else status
    let status := if s.ch2.enabled then status ||| 0x02 else status
    let status := if s.ch3.enabled then status ||| 0x04 else status
    let status := if s.ch4.enabled then status ||| 0x08 else status
    status ||| 0x70
  else s.registers (reg - 0x10)

/-! ## Memory / bus (memory.cpp / memory.h)

The Bus owns every region the C++ Memory owns, plus the PPU and APU states
(the C++ holds back-pointers set up by GameBoy::init; in every configuration
built by the program both pointers are non-null, so the null checks in
Memory::read and Memory::write always take the attached branch).  The ROM and
external RAM vectors are modelled as a total function plus an explicit size;
Memory::read performs an unchecked rom[addr] below 0x4000, which the model
renders as the total function applied at addr (loadROM pads with zero). -/
structure Bus where
  rom : Nat → Nat
  romSize : Nat
  extRam : Nat → Nat
  extRamSize : Nat
  vram : Nat → Nat
  wram : Nat → Nat
  oam : Nat → Nat
  io : Nat → Nat
  hram : Nat → Nat
  ie : Nat
  mbcType : Nat
  romBank : Nat
  ramBank : Nat
  ramEnabled : Bool
  rtcEnabled : Bool
  rtcRegister : Nat
  timerCounter : Nat
  divCounter : Nat
  dmaActive : Bool
  dmaCycles : Nat
  dmaSource : Nat
  joypadButtons : Nat
  joypadDpad : Nat
  ppu : PPUState
  apu : APUState

/-- Post-boot I/O register defaults written by the Memory constructor;
unlisted registers stay zero (the io vector is zero-initialised). -/
def Memory.initIOregs : Nat → Nat := fun r =>
  if r = 0x00 then 0xCF
  else if r = 0x0F then 0xE1
  else if r = 0x10 then 0x80
  else if r = 0x11 then 0xBF
  else if r = 0x12 then 0xF3
  else if r = 0x14 then 0xBF
  else if r = 0x16 then 0x3F
  else if r = 0x19 then 0xBF
  else if r = 0x1A then 0x7F
  else if r = 0x1B then 0xFF
  else if r = 0x1C then 0x9F
  else if r = 0x1E then 0xBF
  else if r = 0x20 then 0xFF
  else if r = 0x23 then 0xBF
  else if r = 0x24 then 0x77
  else if r = 0x25 then 0xF3
  else if r = 0x26 then 0xF1
  else if r = 0x40 then 0x91
  else if r = 0x47 then 0xFC
  else if r = 0x48 then 0xFF
  else if r = 0x49 then 0xFF
  else 0

/-- Bus state right after GameBoy::init: the Memory constructor (all regions
zeroed, the I/O defaults above, romBank = 1, joypad nybbles 0xFF) with the
freshly reset PPU and APU attached.  No ROM is loaded yet. -/
def Memory.init : Bus :=
  { rom := fun _ => 0, romSize := 0,
    extRam := fun _ => 0, extRamSize := 0,
    vram := fun _ => 0, wram := fun _ => 0, oam := fun _ => 0,
    io := Memory.initIOregs, hram := fun _ => 0, ie := 0,
    mbcType := 0, romBank := 1, ramBank := 0,
    ramEnabled := false, rtcEnabled := false, rtcRegister := 0,
    timerCounter := 0, divCounter := 0,
    dmaActive := false, dmaCycles := 0, dmaSource := 0,
    joypadButtons := 0xFF, joypadDpad := 0xFF,
    ppu := PPU.reset, apu := APU.reset }

/-- Memory::getIF. -/
def Bus.getIF (s : Bus) : Nat := s.io 0x0F

/-- Memory::setIF. -/
def Bus.setIF (s : Bus) (val : Nat) : Bus :=
  { s with io := Function.update s.io 0x0F val }

/-- Memory::getIE. -/
def Bus.getIE (s : Bus) : Nat := s.ie

/-- Memory::readJoypad.  result starts at 0xCF (upper two bits set, select
bits clear); a selected row (select bit low) replaces the low nybble. -/
def Bus.readJoypad (s : Bus) : Nat :=
  let select := s.io 0x00 &&& 0x30
  let result := 0xCF
  let result := if select &&& 0x20 = 0 then
                  (result &&& 0xF0) ||| (s.joypadButtons &&& 0x0F)
                else result
  let result := if select &&& 0x10 = 0 then
                  (result &&& 0xF0) ||| (s.joypadDpad &&& 0x0F)
                else result
  result

/-- Memory::read (const: no state change).  The address decode mirrors the
if-cascade of the source; the I/O switch dispatches joypad, LY, STAT and the
APU register range. -/
def Bus.read (s : Bus) (addr : Nat) : Nat :=
  if addr < 0x4000 then s.rom addr
  else if addr < 0x8000 then
    let romAddr := s.romBank * 0x4000 + (addr - 0x4000)
    if romAddr < s.romSize then s.rom romAddr else 0xFF
  else if addr < 0xA000 then s.vram (addr - 0x8000)
  else if addr < 0xC000 then
    if s.ramEnabled ∧ s.extRamSize ≠ 0 then
      let ramAddr := s.ramBank * 0x2000 + (addr - 0xA000)
      if ramAddr < s.extRamSize then s.extRam ramAddr else 0xFF
    else 0xFF
  else if addr < 0xE000 then s.wram (addr - 0xC000)
  else if addr < 0xFE00 then s.wram (addr - 0xE000)
  else if addr < 0xFEA0 then s.oam (addr - 0xFE00)
  else if addr < 0xFF00 then 0xFF
  else if addr < 0xFF80 then
    let reg := addr - 0xFF00
    if reg = 0x00 then Bus.readJoypad s
    else if reg = 0x44 then s.ppu.ly
    else if reg = 0x41 then PPU.readSTAT s.ppu
    else if 0x10 ≤ reg ∧ reg ≤ 0x3F then APU.readRegister s.apu reg
    else s.io reg
  else if addr < 0xFFFF then s.hram (addr - 0xFF80)
  else s.ie

/-- Memory::handleMBCWrite: bank-control decode for writes below 0x8000. -/
def Bus.handleMBCWrite (s : Bus) (addr val : Nat) : Bus :=
  if s.mbcType = 0 then s
  else if s.mbcType = 1 then
    if addr < 0x2000 then { s with ramEnabled := val &&& 0x0F = 0x0A }
    else if addr < 0x4000 then
      let bank := val &&& 0x1F
      { s with romBank := if bank = 0 then 1 else bank }
    else if addr < 0x6000 then { s with ramBank := val &&& 0x03 }
    else s
  else if s.mbcType = 3 then
    if addr < 0x2000 then { s with ramEnabled := val &&& 0x0F = 0x0A }
    else if addr < 0x4000 then
      let bank := val &&& 0x7F
      { s with romBank := if bank = 0 then 1 else bank }
    else if addr < 0x6000 then
      if val ≤ 0x03 then { s with ramBank := val, rtcEnabled := false }
      else if 0x08 ≤ val ∧ val ≤ 0x0C then
        { s with rtcEnabled := true, rtcRegister := val }
      else s
    else s
  else if s.mbcType = 5 then
    if addr < 0x2000 then { s with ramEnabled := val &&& 0x0F = 0x0A }
    else if addr < 0x3000 then { s with romBank := (s.romBank &&& 0x100) ||| val }
    else if addr < 0x4000 then
      { s with romBank := (s.romBank &&& 0xFF) ||| ((val &&& 0x01) <<< 8) }
    else if addr < 0x6000 then { s with ramBank := val &&& 0x0F }
    else s
  else s

/-- Memory::write.  I/O registers with side effects (JOYP select latch, DIV
reset, LCDC / STAT / LY forwarding to the PPU, DMA start, APU forwarding)
follow the switch of the source; everything else is a plain store. -/
def Bus.write (s : Bus) (addr val : Nat) : Bus :=
  if addr < 0x8000 then Bus.handleMBCWrite s addr val
  else if addr < 0xA000 then
    { s with vram := Function.update s.vram (addr - 0x8000) val }
  else if addr < 0xC000 then
    if s.ramEnabled ∧ s.extRamSize ≠ 0 then
      let ramAddr := s.ramBank * 0x2000 + (addr - 0xA000)
      if ramAddr < s.extRamSize then
        { s with extRam := Function.update s.extRam ramAddr val }
      else s
    else s
  else if addr < 0xE000 then
    { s with wram := Function.update s.wram (addr - 0xC000) val }
  else if addr < 0xFE00 then
    { s with wram := Function.update s.wram (addr - 0xE000) val }
  else if addr < 0xFEA0 then
    { s with oam := Function.update s.oam (addr - 0xFE00) val }
  else if addr < 0xFF00 then s
  else if addr < 0xFF80 then
    let reg := addr - 0xFF00
    if reg = 0x00 then
      { s with io := Function.update s.io 0x00
                       ((val &&& 0x30) ||| (s.io 0x00 &&& 0xCF)) }
    else if reg = 0x04 then
      { s with io := Function.update s.io 0x04 0, divCounter := 0 }
    else if reg = 0x40 then
      let (p, io) := PPU.writeLCDC s.ppu s.io val
      { s with ppu := p, io := Function.update io 0x40 val }
    else if reg = 0x41 then
      { s with ppu := PPU.writeSTAT s.ppu val,
               io := Function.update s.io 0x41 val }
    else if reg = 0x44 then { s with ppu := PPU.writeLY s.ppu }
    else if reg = 0x46 then
      { s with dmaActive := true, dmaCycles := 0, dmaSource := val <<< 8,
               io := Function.update s.io 0x46 val }
    else if 0x10 ≤ reg ∧ reg ≤ 0x3F then
      { s with apu := APU.writeRegister s.apu reg val,
               io := Function.update s.io reg val }
    else { s with io := Function.update s.io reg val }
  else if addr < 0xFFFF then
    { s with hram := Function.update s.hram (addr - 0xFF80) val }
  else { s with ie := val }

/-- Memory::getTimerFrequency: clocks per TIMA tick selected by TAC bits 1:0.
The trailing 1024 mirrors the unreachable default of the source switch. -/
def Bus.getTimerFrequency (s : Bus) : Nat :=
  if s.io 0x07 &&& 0x03 = 0 then 1024
  else if s.io 0x07 &&& 0x03 = 1 then 16
  else if s.io 0x07 &&& 0x03 = 2 then 64
  else if s.io 0x07 &&& 0x03 = 3 then 256
  else 1024

/-- DIV loop of Memory::updateTimer: while divCounter >= 256, consume 256
counts and increment the DIV register (a uint8_t, hence mod 256). -/
def Bus.divLoop (s : Bus) : Bus :=
  if h : 256 ≤ s.divCounter then
    Bus.divLoop { s with divCounter := s.divCounter - 256,
                         io := Function.update s.io 0x04 ((s.io 0x04 + 1) % 256) }
  else s
termination_by s.divCounter
decreasing_by omega

/-- One iteration of the TIMA loop body of Memory::updateTimer: consume freq
counts, increment TIMA (uint8_t, mod 256); on wrap to zero reload TIMA from
TMA and set IF bit 2 (INT_TIMER = 0x04). -/
def Bus.timaTick (s : Bus) (freq : Nat) : Bus :=
  let s := { s with timerCounter := s.timerCounter - freq,
                    io := Function.update s.io 0x05 ((s.io 0x05 + 1) % 256) }
  if s.io 0x05 = 0 then
    let io := Function.update s.io 0x05 (s.io 0x06)
    let io := Function.update io 0x0F (io 0x0F ||| 0x04)
    { s with io := io }
  else s

/-- TIMA loop of Memory::updateTimer: while timerCounter >= freq run one
tick.  The source loop relies on freq > 0 (getTimerFrequency only returns
16 / 64 / 256 / 1024); the guard makes that termination argument explicit. -/
def Bus.timaLoop (s : Bus) (freq : Nat) : Bus :=
  if h : 0 < freq ∧ freq ≤ s.timerCounter then
    Bus.timaLoop (Bus.timaTick s freq) freq
  else s
termination_by s.timerCounter
decreasing_by unfold Bus.timaTick; dsimp only; split <;> (dsimp only; omega)

/-- Memory::updateTimer: advance DIV, then, when TAC bit 2 enables the timer,
accumulate the cycles and run the TIMA loop at the selected frequency. -/
def Bus.updateTimer (s : Bus) (cycles : Nat) : Bus :=
  let s := Bus.divLoop { s with divCounter := s.divCounter + cycles }
  if s.io 0x07 &&& 0x04 = 0 then s
  else
    let s := { s with timerCounter := s.timerCounter + cycles }
    Bus.timaLoop s (Bus.getTimerFrequency s)

/-- Memory::updateDMA: while a DMA is active accumulate cycles; once 640 or
more have elapsed copy the 160 bytes starting at dmaSource into OAM and
deactivate.  The C++ copies with an ascending loop oam[i] = read(src + i);
read touches OAM only when src + i itself lies in 0xFE00 - 0xFE9F, and then at
the same index i being assigned, so the loop is equivalent to the functional
update below built from the pre-copy state. -/
def Bus.updateDMA (s : Bus) (cycles : Nat) : Bus :=
  if s.dmaActive = false then s
  else
    let s := { s with dmaCycles := s.dmaCycles + cycles }
    if 640 ≤ s.dmaCycles then
      { s with oam := fun i => if i < 160 then Bus.read s (s.dmaSource + i)
                               else s.oam i,
               dmaActive := false }
    else s

/-- Memory::loadROM.  The file system interaction is abstracted to the
observable input: none when the file cannot be opened (is_open fails), some
bytes when it can.  The body then mirrors the source: store the contents,
and only when the image reaches past the header (size >= 0x148) inspect
byte 0x147 for the MBC type and byte 0x149 for the external RAM size.
Returns the updated state and the boolean result of the C++ function. -/
def Memory.loadROM (s : Bus) (file : Option (List Nat)) : Bus × Bool :=
  match file with
  | none => (s, false)
  | some bytes =>
    let s := { s with rom := fun i => bytes.getD i 0, romSize := bytes.length }
    if 0x148 ≤ bytes.length then
      let cartType := bytes.getD 0x147 0
      let s := { s with mbcType :=
        if cartType = 0x00 then 0
        else if cartType = 0x01 ∨ cartType = 0x02 ∨ cartType = 0x03 then 1
        else if cartType = 0x0F ∨ cartType = 0x10 ∨ cartType = 0x11 ∨
                cartType = 0x12 ∨ cartType = 0x13 then 3
        else if cartType = 0x19 ∨ cartType = 0x1A ∨ cartType = 0x1B ∨
                cartType = 0x1C ∨ cartType = 0x1D ∨ cartType = 0x1E then 5
        else 1 }
      let ramSize := bytes.getD 0x149 0
      let s := { s with extRamSize :=
        if ramSize = 0x02 then 0x2000
        else if ramSize = 0x03 then 0x8000
        else if ramSize = 0x04 then 0x20000
        else if ramSize = 0x05 then 0x10000
        else 0x2000 }
      (s, true)
    else (s, true)

/-- Exit-code logic of main (main.cpp) composed with GameBoy::loadROM
(gameboy.cpp), which just forwards Memory::loadROM.  hasArg is argc >= 2 and
initOk the result of GameBoy::init (SDL setup, external); a clean run exits
with 0. -/
def mainExitCode (hasArg initOk : Bool) (file : Option (List Nat)) : Nat :=
  if hasArg = false then 1
  else if initOk = false then 1
  else if (Memory.loadROM Memory.init file).2 = false then 1
  else 0

/-! ## CPU (cpu.cpp / cpu.h)

The C++ register file uses unions to alias the byte registers with the
pairs AF / BC / DE / HL (low byte first in memory, so F, C, E, L are the low
halves).  The model stores the eight bytes and computes the pairs; the pair
setters mask to 16 bits exactly as the uint16_t stores do.  The Memory
reference is threaded: reads leave the bus unchanged (Memory::read is const),
writes return the new bus. -/
structure CPUState where
  a : Nat
  f : Nat
  b : Nat
  c : Nat
  d : Nat
  e : Nat
  h : Nat
  l : Nat
  sp : Nat
  pc : Nat
  ime : Bool
  imeScheduled : Bool
  halted : Bool
  stopped : Bool
  deriving Repr

/-- CPU::reset: post-boot register values. -/
def CPU.reset : CPUState :=
  { a := 0x01, f := 0xB0, b := 0x00, c := 0x13, d := 0x00, e := 0xD8,
    h := 0x01, l := 0x4D, sp := 0xFFFE, pc := 0x0100,
    ime := false, imeScheduled := false, halted := false, stopped := false }

def CPUState.af (cpu : CPUState) : Nat := cpu.a * 256 + cpu.f

def CPUState.bc (cpu : CPUState) : Nat := cpu.b * 256 + cpu.c

def CPUState.de (cpu : CPUState) : Nat := cpu.d * 256 + cpu.e

def CPUState.hl (cpu : CPUState) : Nat := cpu.h * 256 + cpu.l

def CPUState.setAF (cpu : CPUState) (v : Nat) : CPUState :=
  { cpu with a := (v / 256) % 256, f := v % 256 }

def CPUState.setBC (cpu : CPUState) (v : Nat) : CPUState :=
  { cpu with b := (v / 256) % 256, c := v % 256 }

def CPUState.setDE (cpu : CPUState) (v : Nat) : CPUState :=
  { cpu with d := (v / 256) % 256, e := v % 256 }

def CPUState.setHL (cpu : CPUState) (v : Nat) : CPUState :=
  { cpu with h := (v / 256) % 256, l := v % 256 }

def CPUState.getZ (cpu : CPUState) : Bool := cpu.f &&& 0x80 != 0

def CPUState.getN (cpu : CPUState) : Bool := cpu.f &&& 0x40 != 0

def CPUState.getH (cpu : CPUState) : Bool := cpu.f &&& 0x20 != 0

def CPUState.getC (cpu : CPUState) : Bool := cpu.f &&& 0x10 != 0

/-- Flag setters: f &= ~mask on a uint8_t is the byte-complement mask. -/
def CPUState.setZ (cpu : CPUState) (v : Bool) : CPUState :=
  { cpu with f := if v then cpu.f ||| 0x80 else cpu.f &&& 0x7F }

def CPUState.setN (cpu : CPUState) (v : Bool) : CPUState :=
  { cpu with f := if v then cpu.f ||| 0x40 else cpu.f &&& 0xBF }

def CPUState.setH (cpu : CPUState) (v : Bool) : CPUState :=
  { cpu with f := if v then cpu.f ||| 0x20 else cpu.f &&& 0xDF }

def CPUState.setC (cpu : CPUState) (v : Bool) : CPUState :=
  { cpu with f := if v then cpu.f ||| 0x10 else cpu.f &&& 0xEF }

def CPUState.setFlags (cpu : CPUState) (z n hf cf : Bool) : CPUState :=
  { cpu with f := (if z then 0x80 else 0) ||| (if n then 0x40 else 0) |||
                  (if hf then 0x20 else 0) ||| (if cf then 0x10 else 0) }

/-- CPU::read8 / write8 / read16 / write16 / fetch8 / fetch16 / push16 /
pop16.  Address increments wrap at 16 bits (uint16_t arithmetic). -/
def CPU.read8 (m : Bus) (addr : Nat) : Nat := Bus.read m addr

def CPU.write8 (m : Bus) (addr val : Nat) : Bus := Bus.write m addr val

def CPU.read16 (m : Bus) (addr : Nat) : Nat :=
  CPU.read8 m addr ||| (CPU.read8 m ((addr + 1) % 65536) <<< 8)

def CPU.write16 (m : Bus) (addr val : Nat) : Bus :=
  CPU.write8 (CPU.write8 m addr (val &&& 0xFF)) ((addr + 1) % 65536) (val >>> 8)

def CPU.fetch8 (cpu : CPUState) (m : Bus) : Nat × CPUState :=
  (CPU.read8 m cpu.pc, { cpu with pc := (cpu.pc + 1) % 65536 })

def CPU.fetch16 (cpu : CPUState) (m : Bus) : Nat × CPUState :=
  (CPU.read16 m cpu.pc, { cpu with pc := (cpu.pc + 2) % 65536 })

def CPU.push16 (cpu : CPUState) (m : Bus) (val : Nat) : CPUState × Bus :=
  let sp := (cpu.sp + 65534) % 65536
  ({ cpu with sp := sp }, CPU.write16 m sp val)

def CPU.pop16 (cpu : CPUState) (m : Bus) : Nat × CPUState :=
  (CPU.read16 m cpu.sp, { cpu with sp := (cpu.sp + 2) % 65536 })

/-- Two's-complement sign extension of a fetched byte into arithmetic that is
subsequently taken mod 65536 (the (int8_t) casts of the source). -/
def sext8 (v : Nat) : Nat := if v < 128 then v else v + 0xFF00

/-- Highest-priority pending interrupt bit, in the order VBlank (0x01),
STAT (0x02), Timer (0x04), Serial (0x08), Joypad (0x10), as selected by the
if-cascade of CPU::handleInterrupts. -/
def CPU.interruptBit (pending : Nat) : Nat :=
  if pending &&& 0x01 ≠ 0 then 0x01
  else if pending &&& 0x02 ≠ 0 then 0x02
  else if pending &&& 0x04 ≠ 0 then 0x04
  else if pending &&& 0x08 ≠ 0 then 0x08
  else if pending &&& 0x10 ≠ 0 then 0x10
  else 0

/-- Handler vector paired with CPU.interruptBit by the same if-cascade. -/
def CPU.interruptVector (pending : Nat) : Nat :=
  if pending &&& 0x01 ≠ 0 then 0x40
  else if pending &&& 0x02 ≠ 0 then 0x48
  else if pending &&& 0x04 ≠ 0 then 0x50
  else if pending &&& 0x08 ≠ 0 then 0x58
  else if pending &&& 0x10 ≠ 0 then 0x60
  else 0

/-- CPU::handleInterrupts.  Clearing the dispatched bit is
memory.setIF(getIF() & ~bit); on uint8_t operands with bit a single byte bit
this is getIF &&& (0xFF - bit). -/
def CPU.handleInterrupts (cpu : CPUState) (m : Bus) : CPUState × Bus × Nat :=
  let pending := Bus.getIF m &&& Bus.getIE m &&& 0x1F
  if pending ≠ 0 then
    let cpu := { cpu with halted := false }
    if cpu.ime then
      let cpu := { cpu with ime := false }
      let handler := CPU.interruptVector pending
      let bit := CPU.interruptBit pending
      let m := Bus.setIF m (Bus.getIF m &&& (0xFF - bit))
      let (cpu, m) := CPU.push16 cpu m cpu.pc
      ({ cpu with pc := handler }, m, 20)
    else (cpu, m, 0)
  else (cpu, m, 0)

/-- CPU::add8: flags computed from the untruncated int sum, then A is the
truncated byte. -/
def CPU.add8 (cpu : CPUState) (val : Nat) : CPUState :=
  let result := cpu.a + val
  let cpu := CPUState.setFlags cpu (decide (result &&& 0xFF = 0)) false
      (decide (0xF < (cpu.a &&& 0xF) + (val &&& 0xF))) (decide (0xFF < result))
  { cpu with a := result &&& 0xFF }

/-- CPU::adc8. -/
def CPU.adc8 (cpu : CPUState) (val : Nat) : CPUState :=
  let carry := if cpu.getC then 1 else 0
  let result := cpu.a + val + carry
  let cpu := CPUState.setFlags cpu (decide (result &&& 0xFF = 0)) false
      (decide (0xF < (cpu.a &&& 0xF) + (val &&& 0xF) + carry))
      (decide (0xFF < result))
  { cpu with a := result &&& 0xFF }

/-- CPU::sub8: the int difference may be negative; result & 0xFF of the
two's-complement int is the non-negative residue mod 256. -/
def CPU.sub8 (cpu : CPUState) (val : Nat) : CPUState :=
  let result : Int := (cpu.a : Int) - (val : Int)
  let cpu := CPUState.setFlags cpu (decide (result.emod 256 = 0)) true
      (decide ((cpu.a &&& 0xF) < (val &&& 0xF))) (decide (cpu.a < val))
  { cpu with a := (result.emod 256).toNat }

/-- CPU::sbc8. -/
def CPU.sbc8 (cpu : CPUState) (val : Nat) : CPUState :=
  let carry : Nat := if cpu.getC then 1 else 0
  let result : Int := (cpu.a : Int) - (val : Int) - (carry : Int)
  let cpu := CPUState.setFlags cpu (decide (result.emod 256 = 0)) true
      (decide ((cpu.a &&& 0xF) < (val &&& 0xF) + carry))
      (decide (result < 0))
  { cpu with a := (result.emod 256).toNat }

/-- CPU::and8: A is updated first, the flags read the new A. -/
def CPU.and8 (cpu : CPUState) (val : Nat) : CPUState :=
  let a := cpu.a &&& val
  let cpu := { cpu with a := a }
  CPUState.setFlags cpu (decide (a = 0)) false true false

/-- CPU::or8. -/
def CPU.or8 (cpu : CPUState) (val : Nat) : CPUState :=
  let a := cpu.a ||| val
  let cpu := { cpu with a := a }
  CPUState.setFlags cpu (decide (a = 0)) false false false

/-- CPU::xor8. -/
def CPU.xor8 (cpu : CPUState) (val : Nat) : CPUState :=
  let a := cpu.a ^^^ val
  let cpu := { cpu with a := a }
  CPUState.setFlags cpu (decide (a = 0)) false false false

/-- CPU::cp8: compare without storing the result. -/
def CPU.cp8 (cpu : CPUState) (val : Nat) : CPUState :=
  CPUState.setFlags cpu (decide (cpu.a = val)) true
      (decide ((cpu.a &&& 0xF) < (val &&& 0xF))) (decide (cpu.a < val))

/-- CPU::inc8: returns the incremented byte (uint8_t wrap) and the state with
Z / N / H updated from it; C is untouched. -/
def CPU.inc8 (cpu : CPUState) (reg : Nat) : Nat × CPUState :=
  let reg := (reg + 1) % 256
  let cpu := CPUState.setZ cpu (decide (reg = 0))
  let cpu := CPUState.setN cpu false
  let cpu := CPUState.setH cpu (decide (reg &&& 0xF = 0))
  (reg, cpu)

/-- CPU::dec8: reg-- on a uint8_t wraps, i.e. adds 255 mod 256. -/
def CPU.dec8 (cpu : CPUState) (reg : Nat) : Nat × CPUState :=
  let reg := (reg + 255) % 256
  let cpu := CPUState.setZ cpu (decide (reg = 0))
  let cpu := CPUState.setN cpu true
  let cpu := CPUState.setH cpu (decide (reg &&& 0xF = 0xF))
  (reg, cpu)

/-- CPU::add16hl: Z is unchanged. -/
def CPU.add16hl (cpu : CPUState) (val : Nat) : CPUState :=
  let result := cpu.hl + val
  let cpu := CPUState.setN cpu false
  let cpu := CPUState.setH cpu (decide (0xFFF < (cpu.hl &&& 0xFFF) + (val &&& 0xFFF)))
  let cpu := CPUState.setC cpu (decide (0xFFFF < result))
  CPUState.setHL cpu (result % 65536)

/-- CPU::addSP: val is the raw fetched byte; the int8_t nibble and byte masks
of the source coincide with masking the raw byte. -/
def CPU.addSP (cpu : CPUState) (val : Nat) : CPUState :=
  let cpu := CPUState.setFlags cpu false false
      (decide (0xF < (cpu.sp &&& 0xF) + (val &&& 0xF)))
      (decide (0xFF < (cpu.sp &&& 0xFF) + (val &&& 0xFF)))
  { cpu with sp := (cpu.sp + sext8 val) % 65536 }

/-- CPU::rlc and the other rotate / shift helpers: each returns the result
byte (the uint8_t truncation is the &&& 0xFF) and the state with the four
flags rewritten. -/
def CPU.rlc (cpu : CPUState) (val : Nat) : Nat × CPUState :=
  let result := ((val <<< 1) ||| (val >>> 7)) &&& 0xFF
  (result, CPUState.setFlags cpu (decide (result = 0)) false false
      (decide (val &&& 0x80 ≠ 0)))

def CPU.rrc (cpu : CPUState) (val : Nat) : Nat × CPUState :=
  let result := ((val >>> 1) ||| (val <<< 7)) &&& 0xFF
  (result, CPUState.setFlags cpu (decide (result = 0)) false false
      (decide (val &&& 0x01 ≠ 0)))

def CPU.rl (cpu : CPUState) (val : Nat) : Nat × CPUState :=
  let result := ((val <<< 1) ||| (if cpu.getC then 1 else 0)) &&& 0xFF
  (result, CPUState.setFlags cpu (decide (result = 0)) false false
      (decide (val &&& 0x80 ≠ 0)))

def CPU.rr (cpu : CPUState) (val : Nat) : Nat × CPUState :=
  let result := ((val >>> 1) ||| (if cpu.getC then 0x80 else 0)) &&& 0xFF
  (result, CPUState.setFlags cpu (decide (result = 0)) false false
      (decide (val &&& 0x01 ≠ 0)))

def CPU.sla (cpu : CPUState) (val : Nat) : Nat × CPUState :=
  let result := (val <<< 1) &&& 0xFF
  (result, CPUState.setFlags cpu (decide (result = 0)) false false
      (decide (val &&& 0x80 ≠ 0)))

def CPU.sra (cpu : CPUState) (val : Nat) : Nat × CPUState :=
  let result := ((val >>> 1) ||| (val &&& 0x80)) &&& 0xFF
  (result, CPUState.setFlags cpu (decide (result = 0)) false false
      (decide (val &&& 0x01 ≠ 0)))

def CPU.swap (cpu : CPUState) (val : Nat) : Nat × CPUState :=
  let result := (((val &&& 0x0F) <<< 4) ||| ((val &&& 0xF0) >>> 4)) &&& 0xFF
  (result, CPUState.setFlags cpu (decide (result = 0)) false false false)

def CPU.srl (cpu : CPUState) (val : Nat) : Nat × CPUState :=
  let result := (val >>> 1) &&& 0xFF
  (result, CPUState.setFlags cpu (decide (result = 0)) false false
      (decide (val &&& 0x01 ≠ 0)))

/-- CPU::bit: Z from the tested bit, C unchanged. -/
def CPU.bit (cpu : CPUState) (bn val : Nat) : CPUState :=
  let cpu := CPUState.setZ cpu (decide (val &&& (1 <<< bn) = 0))
  let cpu := CPUState.setN cpu false
  CPUState.setH cpu true

/-- CPU::res: val & ~(1 << b) on byte operands (b is always 0..7 here). -/
def CPU.res (bn val : Nat) : Nat := val &&& (0xFF ^^^ (1 <<< bn))

/-- CPU::set. -/
def CPU.set (bn val : Nat) : Nat := val ||| (1 <<< bn)

/-- Operand lookup of CPU::executeCB: index 0..7 maps to
B, C, D, E, H, L, (HL), A. -/
def CPU.getReg8 (cpu : CPUState) (m : Bus) (i : Nat) : Nat :=
  if i = 0 then cpu.b
  else if i = 1 then cpu.c
  else if i = 2 then cpu.d
  else if i = 3 then cpu.e
  else if i = 4 then cpu.h
  else if i = 5 then cpu.l
  else if i = 6 then CPU.read8 m cpu.hl
  else cpu.a

/-- Operand store of CPU::executeCB for the register operands (index 6 goes
through write8 at the call sites, mirroring the source control flow). -/
def CPU.setReg8 (cpu : CPUState) (i v : Nat) : CPUState :=
  if i = 0 then { cpu with b := v }
  else if i = 1 then { cpu with c := v }
  else if i = 2 then { cpu with d := v }
  else if i = 3 then { cpu with e := v }
  else if i = 4 then { cpu with h := v }
  else if i = 5 then { cpu with l := v }
  else { cpu with a := v }

/-- CPU::executeCB: the second opcode byte selects operand (low 3 bits) and
operation (high 5 bits); BIT returns without writing back. -/
def CPU.executeCB (cpu : CPUState) (m : Bus) : CPUState × Bus × Nat :=
  let (opcode, cpu) := CPU.fetch8 cpu m
  let reg := opcode &&& 0x07
  let op := opcode >>> 3
  let val := CPU.getReg8 cpu m reg
  if op < 8 then
    let (result, cpu) :=
      if op = 0 then CPU.rlc cpu val
      else if op = 1 then CPU.rrc cpu val
      else if op = 2 then CPU.rl cpu val
      else if op = 3 then CPU.rr cpu val
      else if op = 4 then CPU.sla cpu val
      else if op = 5 then CPU.sra cpu val
      else if op = 6 then CPU.swap cpu val
      else CPU.srl cpu val
    if reg = 6 then (cpu, CPU.write8 m cpu.hl result, 16)
    else (CPU.setReg8 cpu reg result, m, 8)
  else
    let bitNum := (op - 8) % 8
    if op < 16 then
      (CPU.bit cpu bitNum val, m, if reg = 6 then 12 else 8)
    else if op < 24 then
      let result := CPU.res bitNum val
      if reg = 6 then (cpu, CPU.write8 m cpu.hl result, 16)
      else (CPU.setReg8 cpu reg result, m, 8)
    else
      let result := CPU.set bitNum val
      if reg = 6 then (cpu, CPU.write8 m cpu.hl result, 16)
      else (CPU.setReg8 cpu reg result, m, 8)

set_option maxHeartbeats 3200000 in
/-- Opcode dispatch of CPU::step: the 256-case switch of the source,
transcribed case by case, applied to the already fetched opcode byte (the
fetch itself, like the interrupt dispatch preceding it, lives in CPU.step).
uint16_t register writes wrap mod 65536, uint8_t writes mod 256 (or are
masked with &&& 0xFF), and undefined opcodes fall through to the 4-clock
default. -/
def CPU.execute (cpu : CPUState) (m : Bus) (opcode : Nat) : CPUState × Bus × Nat :=
  match opcode with
      | 0x00 => (cpu, m, 4)
      | 0x01 => let (v, cpu) := CPU.fetch16 cpu m; (CPUState.setBC cpu v, m, 12)
      | 0x11 => let (v, cpu) := CPU.fetch16 cpu m; (CPUState.setDE cpu v, m, 12)
      | 0x21 => let (v, cpu) := CPU.fetch16 cpu m; (CPUState.setHL cpu v, m, 12)
      | 0x31 => let (v, cpu) := CPU.fetch16 cpu m; ({ cpu with sp := v }, m, 12)
      | 0x02 => (cpu, CPU.write8 m cpu.bc cpu.a, 8)
      | 0x12 => (cpu, CPU.write8 m cpu.de cpu.a, 8)
      | 0x22 => let m := CPU.write8 m cpu.hl cpu.a
                (CPUState.setHL cpu ((cpu.hl + 1) % 65536), m, 8)
      | 0x32 => let m := CPU.write8 m cpu.hl cpu.a
                (CPUState.setHL cpu ((cpu.hl + 65535) % 65536), m, 8)
      | 0x0A => ({ cpu with a := CPU.read8 m cpu.bc }, m, 8)
      | 0x1A => ({ cpu with a := CPU.read8 m cpu.de }, m, 8)
      | 0x2A => let cpu := { cpu with a := CPU.read8 m cpu.hl }
                (CPUState.setHL cpu ((cpu.hl + 1) % 65536), m, 8)
      | 0x3A => let cpu := { cpu with a := CPU.read8 m cpu.hl }
                (CPUState.setHL cpu ((cpu.hl + 65535) % 65536), m, 8)
      | 0x03 => (CPUState.setBC cpu ((cpu.bc + 1) % 65536), m, 8)
      | 0x13 => (CPUState.setDE cpu ((cpu.de + 1) % 65536), m, 8)
      | 0x23 => (CPUState.setHL cpu ((cpu.hl + 1) % 65536), m, 8)
      | 0x33 => ({ cpu with sp := (cpu.sp + 1) % 65536 }, m, 8)
      | 0x0B => (CPUState.setBC cpu ((cpu.bc + 65535) % 65536), m, 8)
      | 0x1B => (CPUState.setDE cpu ((cpu.de + 65535) % 65536), m, 8)
      | 0x2B => (CPUState.setHL cpu ((cpu.hl + 65535) % 65536), m, 8)
      | 0x3B => ({ cpu with sp := (cpu.sp + 65535) % 65536 }, m, 8)
      | 0x04 => let (v, cpu) := CPU.inc8 cpu cpu.b; ({ cpu with b := v }, m, 4)
      | 0x0C => let (v, cpu) := CPU.inc8 cpu cpu.c; ({ cpu with c := v }, m, 4)
      | 0x14 => let (v, cpu) := CPU.inc8 cpu cpu.d; ({ cpu with d := v }, m, 4)
      | 0x1C => let (v, cpu) := CPU.inc8 cpu cpu.e; ({ cpu with e := v }, m, 4)
      | 0x24 => let (v, cpu) := CPU.inc8 cpu cpu.h; ({ cpu with h := v }, m, 4)
      | 0x2C => let (v, cpu) := CPU.inc8 cpu cpu.l; ({ cpu with l := v }, m, 4)
      | 0x34 => let v := CPU.read8 m cpu.hl
                let (v, cpu) := CPU.inc8 cpu v
                (cpu, CPU.write8 m cpu.hl v, 12)
      | 0x3C => let (v, cpu) := CPU.inc8 cpu cpu.a; ({ cpu with a := v }, m, 4)
      | 0x05 => let (v, cpu) := CPU.dec8 cpu cpu.b; ({ cpu with b := v }, m, 4)
      | 0x0D => let (v, cpu) := CPU.dec8 cpu cpu.c; ({ cpu with c := v }, m, 4)
      | 0x15 => let (v, cpu) := CPU.dec8 cpu cpu.d; ({ cpu with d := v }, m, 4)
      | 0x1D => let (v, cpu) := CPU.dec8 cpu cpu.e; ({ cpu with e := v }, m, 4)
      | 0x25 => let (v, cpu) := CPU.dec8 cpu cpu.h; ({ cpu with h := v }, m, 4)
      | 0x2D => let (v, cpu) := CPU.dec8 cpu cpu.l; ({ cpu with l := v }, m, 4)
      | 0x35 => let v := CPU.read8 m cpu.hl
                let (v, cpu) := CPU.dec8 cpu v
                (cpu, CPU.write8 m cpu.hl v, 12)
      | 0x3D => let (v, cpu) := CPU.dec8 cpu cpu.a; ({ cpu with a := v }, m, 4)
      | 0x06 => let (v, cpu) := CPU.fetch8 cpu m; ({ cpu with b := v }, m, 8)
      | 0x0E => let (v, cpu) := CPU.fetch8 cpu m; ({ cpu with c := v }, m, 8)
      | 0x16 => let (v, cpu) := CPU.fetch8 cpu m; ({ cpu with d := v }, m, 8)
      | 0x1E => let (v, cpu) := CPU.fetch8 cpu m; ({ cpu with e := v }, m, 8)
      | 0x26 => let (v, cpu) := CPU.fetch8 cpu m; ({ cpu with h := v }, m, 8)
      | 0x2E => let (v, cpu) := CPU.fetch8 cpu m; ({ cpu with l := v }, m, 8)
      | 0x36 => let (v, cpu) := CPU.fetch8 cpu m
                (cpu, CPU.write8 m cpu.hl v, 12)
      | 0x3E => let (v, cpu) := CPU.fetch8 cpu m; ({ cpu with a := v }, m, 8)
      | 0x07 => let (v, cpu) := CPU.rlc cpu cpu.a
                (CPUState.setZ { cpu with a := v } false, m, 4)
      | 0x0F => let (v, cpu) := CPU.rrc cpu cpu.a
                (CPUState.setZ { cpu with a := v } false, m, 4)
      | 0x17 => let (v, cpu) := CPU.rl cpu cpu.a
                (CPUState.setZ { cpu with a := v } false, m, 4)
      | 0x1F => let (v, cpu) := CPU.rr cpu cpu.a
                (CPUState.setZ { cpu with a := v } false, m, 4)
      | 0x08 => let (addr, cpu) := CPU.fetch16 cpu m
                (cpu, CPU.write16 m addr cpu.sp, 20)
      | 0x09 => (CPU.add16hl cpu cpu.bc, m, 8)
      | 0x19 => (CPU.add16hl cpu cpu.de, m, 8)
      | 0x29 => (CPU.add16hl cpu cpu.hl, m, 8)
      | 0x39 => (CPU.add16hl cpu cpu.sp, m, 8)
      | 0x18 => let (v, cpu) := CPU.fetch8 cpu m
                ({ cpu with pc := (cpu.pc + sext8 v) % 65536 }, m, 12)
      | 0x20 => let (v, cpu) := CPU.fetch8 cpu m
                if !cpu.getZ then
                  ({ cpu with pc := (cpu.pc + sext8 v) % 65536 }, m, 12)
                else (cpu, m, 8)
      | 0x28 => let (v, cpu) := CPU.fetch8 cpu m
                if cpu.getZ then
                  ({ cpu with pc := (cpu.pc + sext8 v) % 65536 }, m, 12)
                else (cpu, m, 8)
      | 0x30 => let (v, cpu) := CPU.fetch8 cpu m
                if !cpu.getC then
                  ({ cpu with pc := (cpu.pc + sext8 v) % 65536 }, m, 12)
                else (cpu, m, 8)
      | 0x38 => let (v, cpu) := CPU.fetch8 cpu m
                if cpu.getC then
                  ({ cpu with pc := (cpu.pc + sext8 v) % 65536 }, m, 12)
                else (cpu, m, 8)
      | 0x27 =>
        let result : Int := (cpu.a : Int)
        if cpu.getN then
          let result := if cpu.getC then result - 0x60 else result
          let result := if cpu.getH then result - 0x06 else result
          let a := (result.emod 256).toNat
          let cpu := { cpu with a := a }
          let cpu := CPUState.setZ cpu (decide (a = 0))
          (CPUState.setH cpu false, m, 4)
        else
          let (result, cpu) :=
            if cpu.getC || decide ((0x99 : Int) < result) then
              (result + 0x60, CPUState.setC cpu true)
            else (result, cpu)
          let result :=
            if cpu.getH || decide ((0x09 : Int) < result.emod 16) then
              result + 0x06
            else result
          let a := (result.emod 256).toNat
          let cpu := { cpu with a := a }
          let cpu := CPUState.setZ cpu (decide (a = 0))
          (CPUState.setH cpu false, m, 4)
      | 0x2F => let cpu := { cpu with a := cpu.a ^^^ 0xFF }
                let cpu := CPUState.setN cpu true
                (CPUState.setH cpu true, m, 4)
      | 0x37 => let cpu := CPUState.setN cpu false
                let cpu := CPUState.setH cpu false
                (CPUState.setC cpu true, m, 4)
      | 0x3F => let cpu := CPUState.setN cpu false
                let cpu := CPUState.setH cpu false
                (CPUState.setC cpu (!cpu.getC), m, 4)
      | 0x76 => ({ cpu with halted := true }, m, 4)
      | 0x40 => ({ cpu with b := cpu.b }, m, 4)
      | 0x41 => ({ cpu with b := cpu.c }, m, 4)
      | 0x42 => ({ cpu with b := cpu.d }, m, 4)
      | 0x43 => ({ cpu with b := cpu.e }, m, 4)
      | 0x44 => ({ cpu with b := cpu.h }, m, 4)
      | 0x45 => ({ cpu with b := cpu.l }, m, 4)
      | 0x46 => ({ cpu with b := CPU.read8 m cpu.hl }, m, 8)
      | 0x47 => ({ cpu with b := cpu.a }, m, 4)
      | 0x48 => ({ cpu with c := cpu.b }, m, 4)
      | 0x49 => ({ cpu with c := cpu.c }, m, 4)
      | 0x4A => ({ cpu with c := cpu.d }, m, 4)
      | 0x4B => ({ cpu with c := cpu.e }, m, 4)
      | 0x4C => ({ cpu with c := cpu.h }, m, 4)
      | 0x4D => ({ cpu with c := cpu.l }, m, 4)
      | 0x4E => ({ cpu with c := CPU.read8 m cpu.hl }, m, 8)
      | 0x4F => ({ cpu with c := cpu.a }, m, 4)
      | 0x50 => ({ cpu with d := cpu.b }, m, 4)
      | 0x51 => ({ cpu with d := cpu.c }, m, 4)
      | 0x52 => ({ cpu with d := cpu.d }, m, 4)
      | 0x53 => ({ cpu with d := cpu.e }, m, 4)
      | 0x54 => ({ cpu with d := cpu.h }, m, 4)
      | 0x55 => ({ cpu with d := cpu.l }, m, 4)
      | 0x56 => ({ cpu with d := CPU.read8 m cpu.hl }, m, 8)
      | 0x57 => ({ cpu with d := cpu.a }, m, 4)
      | 0x58 => ({ cpu with e := cpu.b }, m, 4)
      | 0x59 => ({ cpu with e := cpu.c }, m, 4)
      | 0x5A => ({ cpu with e := cpu.d }, m, 4)
      | 0x5B => ({ cpu with e := cpu.e }, m, 4)
      | 0x5C => ({ cpu with e := cpu.h }, m, 4)
      | 0x5D => ({ cpu with e := cpu.l }, m, 4)
      | 0x5E => ({ cpu with e := CPU.read8 m cpu.hl }, m, 8)
      | 0x5F => ({ cpu with e := cpu.a }, m, 4)
      | 0x60 => ({ cpu with h := cpu.b }, m, 4)
      | 0x61 => ({ cpu with h := cpu.c }, m, 4)
      | 0x62 => ({ cpu with h := cpu.d }, m, 4)
      | 0x63 => ({ cpu with h := cpu.e }, m, 4)
      | 0x64 => ({ cpu with h := cpu.h }, m, 4)
      | 0x65 => ({ cpu with h := cpu.l }, m, 4)
      | 0x66 => ({ cpu with h := CPU.read8 m cpu.hl }, m, 8)
      | 0x67 => ({ cpu with h := cpu.a }, m, 4)
      | 0x68 => ({ cpu with l := cpu.b }, m, 4)
      | 0x69 => ({ cpu with l := cpu.c }, m, 4)
      | 0x6A => ({ cpu with l := cpu.d }, m, 4)
      | 0x6B => ({ cpu with l := cpu.e }, m, 4)
      | 0x6C => ({ cpu with l := cpu.h }, m, 4)
      | 0x6D => ({ cpu with l := cpu.l }, m, 4)
      | 0x6E => ({ cpu with l := CPU.read8 m cpu.hl }, m, 8)
      | 0x6F => ({ cpu with l := cpu.a }, m, 4)
      | 0x70 => (cpu, CPU.write8 m cpu.hl cpu.b, 8)
      | 0x71 => (cpu, CPU.write8 m cpu.hl cpu.c, 8)
      | 0x72 => (cpu, CPU.write8 m cpu.hl cpu.d, 8)
      | 0x73 => (cpu, CPU.write8 m cpu.hl cpu.e, 8)
      | 0x74 => (cpu, CPU.write8 m cpu.hl cpu.h, 8)
      | 0x75 => (cpu, CPU.write8 m cpu.hl cpu.l, 8)
      | 0x77 => (cpu, CPU.write8 m cpu.hl cpu.a, 8)
      | 0x78 => ({ cpu with a := cpu.b }, m, 4)
      | 0x79 => ({ cpu with a := cpu.c }, m, 4)
      | 0x7A => ({ cpu with a := cpu.d }, m, 4)
      | 0x7B => ({ cpu with a := cpu.e }, m, 4)
      | 0x7C => ({ cpu with a := cpu.h }, m, 4)
      | 0x7D => ({ cpu with a := cpu.l }, m, 4)
      | 0x7E => ({ cpu with a := CPU.read8 m cpu.hl }, m, 8)
      | 0x7F => ({ cpu with a := cpu.a }, m, 4)
      | 0x80 => (CPU.add8 cpu cpu.b, m, 4)
      | 0x81 => (CPU.add8 cpu cpu.c, m, 4)
      | 0x82 => (CPU.add8 cpu cpu.d, m, 4)
      | 0x83 => (CPU.add8 cpu cpu.e, m, 4)
      | 0x84 => (CPU.add8 cpu cpu.h, m, 4)
      | 0x85 => (CPU.add8 cpu cpu.l, m, 4)
      | 0x86 => (CPU.add8 cpu (CPU.read8 m cpu.hl), m, 8)
      | 0x87 => (CPU.add8 cpu cpu.a, m, 4)
      | 0x88 => (CPU.adc8 cpu cpu.b, m, 4)
      | 0x89 => (CPU.adc8 cpu cpu.c, m, 4)
      | 0x8A => (CPU.adc8 cpu cpu.d, m, 4)
      | 0x8B => (CPU.adc8 cpu cpu.e, m, 4)
      | 0x8C => (CPU.adc8 cpu cpu.h, m, 4)
      | 0x8D => (CPU.adc8 cpu cpu.l, m, 4)
      | 0x8E => (CPU.adc8 cpu (CPU.read8 m cpu.hl), m, 8)
      | 0x8F => (CPU.adc8 cpu cpu.a, m, 4)
      | 0x90 => (CPU.sub8 cpu cpu.b, m, 4)
      | 0x91 => (CPU.sub8 cpu cpu.c, m, 4)
      | 0x92 => (CPU.sub8 cpu cpu.d, m, 4)
      | 0x93 => (CPU.sub8 cpu cpu.e, m, 4)
      | 0x94 => (CPU.sub8 cpu cpu.h, m, 4)
      | 0x95 => (CPU.sub8 cpu cpu.l, m, 4)
      | 0x96 => (CPU.sub8 cpu (CPU.read8 m cpu.hl), m, 8)
      | 0x97 => (CPU.sub8 cpu cpu.a, m, 4)
      | 0x98 => (CPU.sbc8 cpu cpu.b, m, 4)
      | 0x99 => (CPU.sbc8 cpu cpu.c, m, 4)
      | 0x9A => (CPU.sbc8 cpu cpu.d, m, 4)
      | 0x9B => (CPU.sbc8 cpu cpu.e, m, 4)
      | 0x9C => (CPU.sbc8 cpu cpu.h, m, 4)
      | 0x9D => (CPU.sbc8 cpu cpu.l, m, 4)
      | 0x9E => (CPU.sbc8 cpu (CPU.read8 m cpu.hl), m, 8)
      | 0x9F => (CPU.sbc8 cpu cpu.a, m, 4)
      | 0xA0 => (CPU.and8 cpu cpu.b, m, 4)
      | 0xA1 => (CPU.and8 cpu cpu.c, m, 4)
      | 0xA2 => (CPU.and8 cpu cpu.d, m, 4)
      | 0xA3 => (CPU.and8 cpu cpu.e, m, 4)
      | 0xA4 => (CPU.and8 cpu cpu.h, m, 4)
      | 0xA5 => (CPU.and8 cpu cpu.l, m, 4)
      | 0xA6 => (CPU.and8 cpu (CPU.read8 m cpu.hl), m, 8)
      | 0xA7 => (CPU.and8 cpu cpu.a, m, 4)
      | 0xA8 => (CPU.xor8 cpu cpu.b, m, 4)
      | 0xA9 => (CPU.xor8 cpu cpu.c, m, 4)
      | 0xAA => (CPU.xor8 cpu cpu.d, m, 4)
      | 0xAB => (CPU.xor8 cpu cpu.e, m, 4)
      | 0xAC => (CPU.xor8 cpu cpu.h, m, 4)
      | 0xAD => (CPU.xor8 cpu cpu.l, m, 4)
      | 0xAE => (CPU.xor8 cpu (CPU.read8 m cpu.hl), m, 8)
      | 0xAF => (CPU.xor8 cpu cpu.a, m, 4)
      | 0xB0 => (CPU.or8 cpu cpu.b, m, 4)
      | 0xB1 => (CPU.or8 cpu cpu.c, m, 4)
      | 0xB2 => (CPU.or8 cpu cpu.d, m, 4)
      | 0xB3 => (CPU.or8 cpu cpu.e, m, 4)
      | 0xB4 => (CPU.or8 cpu cpu.h, m, 4)
      | 0xB5 => (CPU.or8 cpu cpu.l, m, 4)
      | 0xB6 => (CPU.or8 cpu (CPU.read8 m cpu.hl), m, 8)
      | 0xB7 => (CPU.or8 cpu cpu.a, m, 4)
      | 0xB8 => (CPU.cp8 cpu cpu.b, m, 4)
      | 0xB9 => (CPU.cp8 cpu cpu.c, m, 4)
      | 0xBA => (CPU.cp8 cpu cpu.d, m, 4)
      | 0xBB => (CPU.cp8 cpu cpu.e, m, 4)
      | 0xBC => (CPU.cp8 cpu cpu.h, m, 4)
      | 0xBD => (CPU.cp8 cpu cpu.l, m, 4)
      | 0xBE => (CPU.cp8 cpu (CPU.read8 m cpu.hl), m, 8)
      | 0xBF => (CPU.cp8 cpu cpu.a, m, 4)
      | 0xC0 => if !cpu.getZ then
                  let (v, cpu) := CPU.pop16 cpu m
                  ({ cpu with pc := v }, m, 20)
                else (cpu, m, 8)
      | 0xC8 => if cpu.getZ then
                  let (v, cpu) := CPU.pop16 cpu m
                  ({ cpu with pc := v }, m, 20)
                else (cpu, m, 8)
      | 0xD0 => if !cpu.getC then
                  let (v, cpu) := CPU.pop16 cpu m
                  ({ cpu with pc := v }, m, 20)
                else (cpu, m, 8)
      | 0xD8 => if cpu.getC then
                  let (v, cpu) := CPU.pop16 cpu m
                  ({ cpu with pc := v }, m, 20)
                else (cpu, m, 8)
      | 0xC1 => let (v, cpu) := CPU.pop16 cpu m; (CPUState.setBC cpu v, m, 12)
      | 0xD1 => let (v, cpu) := CPU.pop16 cpu m; (CPUState.setDE cpu v, m, 12)
      | 0xE1 => let (v, cpu) := CPU.pop16 cpu m; (CPUState.setHL cpu v, m, 12)
      | 0xF1 => let (v, cpu) := CPU.pop16 cpu m
                (CPUState.setAF cpu (v &&& 0xFFF0), m, 12)
      | 0xC2 => let (addr, cpu) := CPU.fetch16 cpu m
                if !cpu.getZ then ({ cpu with pc := addr }, m, 16)
                else (cpu, m, 12)
      | 0xCA => let (addr, cpu) := CPU.fetch16 cpu m
                if cpu.getZ then ({ cpu with pc := addr }, m, 16)
                else (cpu, m, 12)
      | 0xD2 => let (addr, cpu) := CPU.fetch16 cpu m
                if !cpu.getC then ({ cpu with pc := addr }, m, 16)
                else (cpu, m, 12)
      | 0xDA => let (addr, cpu) := CPU.fetch16 cpu m
                if cpu.getC then ({ cpu with pc := addr }, m, 16)
                else (cpu, m, 12)
      | 0xC3 => let (addr, cpu) := CPU.fetch16 cpu m
                ({ cpu with pc := addr }, m, 16)
      | 0xC4 => let (addr, cpu) := CPU.fetch16 cpu m
                if !cpu.getZ then
                  let (cpu, m) := CPU.push16 cpu m cpu.pc
                  ({ cpu with pc := addr }, m, 24)
                else (cpu, m, 12)
      | 0xCC => let (addr, cpu) := CPU.fetch16 cpu m
                if cpu.getZ then
                  let (cpu, m) := CPU.push16 cpu m cpu.pc
                  ({ cpu with pc := addr }, m, 24)
                else (cpu, m, 12)
      | 0xD4 => let (addr, cpu) := CPU.fetch16 cpu m
                if !cpu.getC then
                  let (cpu, m) := CPU.push16 cpu m cpu.pc
                  ({ cpu with pc := addr }, m, 24)
                else (cpu, m, 12)
      | 0xDC => let (addr, cpu) := CPU.fetch16 cpu m
                if cpu.getC then
                  let (cpu, m) := CPU.push16 cpu m cpu.pc
                  ({ cpu with pc := addr }, m, 24)
                else (cpu, m, 12)
      | 0xC5 => let (cpu, m) := CPU.push16 cpu m cpu.bc; (cpu, m, 16)
      | 0xD5 => let (cpu, m) := CPU.push16 cpu m cpu.de; (cpu, m, 16)
      | 0xE5 => let (cpu, m) := CPU.push16 cpu m cpu.hl; (cpu, m, 16)
      | 0xF5 => let (cpu, m) := CPU.push16 cpu m cpu.af; (cpu, m, 16)
      | 0xC6 => let (v, cpu) := CPU.fetch8 cpu m; (CPU.add8 cpu v, m, 8)
      | 0xCE => let (v, cpu) := CPU.fetch8 cpu m; (CPU.adc8 cpu v, m, 8)
      | 0xD6 => let (v, cpu) := CPU.fetch8 cpu m; (CPU.sub8 cpu v, m, 8)
      | 0xDE => let (v, cpu) := CPU.fetch8 cpu m; (CPU.sbc8 cpu v, m, 8)
      | 0xE6 => let (v, cpu) := CPU.fetch8 cpu m; (CPU.and8 cpu v, m, 8)
      | 0xEE => let (v, cpu) := CPU.fetch8 cpu m; (CPU.xor8 cpu v, m, 8)
      | 0xF6 => let (v, cpu) := CPU.fetch8 cpu m; (CPU.or8 cpu v, m, 8)
      | 0xFE => let (v, cpu) := CPU.fetch8 cpu m; (CPU.cp8 cpu v, m, 8)
      | 0xC7 => let (cpu, m) := CPU.push16 cpu m cpu.pc
                ({ cpu with pc := 0x00 }, m, 16)
      | 0xCF => let (cpu, m) := CPU.push16 cpu m cpu.pc
                ({ cpu with pc := 0x08 }, m, 16)
      | 0xD7 => let (cpu, m) := CPU.push16 cpu m cpu.pc
                ({ cpu with pc := 0x10 }, m, 16)
      | 0xDF => let (cpu, m) := CPU.push16 cpu m cpu.pc
                ({ cpu with pc := 0x18 }, m, 16)
      | 0xE7 => let (cpu, m) := CPU.push16 cpu m cpu.pc
                ({ cpu with pc := 0x20 }, m, 16)
      | 0xEF => let (cpu, m) := CPU.push16 cpu m cpu.pc
                ({ cpu with pc := 0x28 }, m, 16)
      | 0xF7 => let (cpu, m) := CPU.push16 cpu m cpu.pc
                ({ cpu with pc := 0x30 }, m, 16)
      | 0xFF => let (cpu, m) := CPU.push16 cpu m cpu.pc
                ({ cpu with pc := 0x38 }, m, 16)
      | 0xC9 => let (v, cpu) := CPU.pop16 cpu m; ({ cpu with pc := v }, m, 16)
      | 0xD9 => let (v, cpu) := CPU.pop16 cpu m
                ({ cpu with pc := v, ime := true }, m, 16)
      | 0xCD => let (addr, cpu) := CPU.fetch16 cpu m
                let (cpu, m) := CPU.push16 cpu m cpu.pc
                ({ cpu with pc := addr }, m, 24)
      | 0xCB => let (cpu, m, t) := CPU.executeCB cpu m; (cpu, m, t + 4)
      | 0xE0 => let (v, cpu) := CPU.fetch8 cpu m
                (cpu, CPU.write8 m ((0xFF00 + v) % 65536) cpu.a, 12)
      | 0xF0 => let (v, cpu) := CPU.fetch8 cpu m
                ({ cpu with a := CPU.read8 m ((0xFF00 + v) % 65536) }, m, 12)
      | 0xE2 => (cpu, CPU.write8 m ((0xFF00 + cpu.c) % 65536) cpu.a, 8)
      | 0xF2 => ({ cpu with a := CPU.read8 m ((0xFF00 + cpu.c) % 65536) }, m, 8)
      | 0xEA => let (addr, cpu) := CPU.fetch16 cpu m
                (cpu, CPU.write8 m addr cpu.a, 16)
      | 0xFA => let (addr, cpu) := CPU.fetch16 cpu m
                ({ cpu with a := CPU.read8 m addr }, m, 16)
      | 0xE9 => ({ cpu with pc := cpu.hl }, m, 4)
      | 0xF9 => ({ cpu with sp := cpu.hl }, m, 8)
      | 0xE8 => let (v, cpu) := CPU.fetch8 cpu m; (CPU.addSP cpu v, m, 16)
      | 0xF8 => let (v, cpu) := CPU.fetch8 cpu m
                let cpu := CPUState.setFlags cpu false false
                    (decide (0xF < (cpu.sp &&& 0xF) + (v &&& 0xF)))
                    (decide (0xFF < (cpu.sp &&& 0xFF) + (v &&& 0xFF)))
                (CPUState.setHL cpu ((cpu.sp + sext8 v) % 65536), m, 12)
      | 0xF3 => ({ cpu with ime := false }, m, 4)
      | 0xFB => ({ cpu with imeScheduled := true }, m, 4)
      | 0x10 => let cpu := { cpu with stopped := true }
                let (_, cpu) := CPU.fetch8 cpu m
                (cpu, m, 4)
      | _ => (cpu, m, 4)

/-- CPU::step: commit a scheduled IME enable, dispatch interrupts, idle when
halted, otherwise fetch one opcode byte and run the dispatch switch
(CPU.execute). -/
def CPU.step (cpu : CPUState) (m : Bus) : CPUState × Bus × Nat :=
  let cpu := if cpu.imeScheduled then
               { cpu with ime := true, imeScheduled := false }
             else cpu
  let r := CPU.handleInterrupts cpu m
  if 0 < r.2.2 then r
  else
    let cpu := r.1
    let m := r.2.1
    if cpu.halted then (cpu, m, 4)
    else
      let (opcode, cpu) := CPU.fetch8 cpu m
      CPU.execute cpu m opcode

/-! ## Stated properties and test fixtures -/

/-- The PPU invariant asserted by the specification: the low two STAT bits
mirror the mode, STAT bit 2 mirrors the LY = LYC coincidence, LY stays within
0..153, and mode 1 (VBlank) holds exactly on lines 144 and above. -/
def PPU.invariant (p : PPUState) : Prop :=
  p.stat &&& 0x03 = p.mode ∧
  (p.stat &&& 0x04 ≠ 0 ↔ p.ly = p.lyc) ∧
  p.ly ≤ 153 ∧
  (p.mode = 1 ↔ 144 ≤ p.ly)

instance (p : PPUState) : Decidable (PPU.invariant p) := by
  unfold PPU.invariant; infer_instance

/-- Timer scenario of the specification, before the overflow: TAC = 0x05,
TIMA = 0xFF, TMA = 0x42, with k clocks accumulated so far. -/
def timerArmed (s : Bus) (k : Nat) : Prop :=
  s.io 0x07 = 0x05 ∧ s.io 0x05 = 0xFF ∧ s.io 0x06 = 0x42 ∧ s.timerCounter = k

/-- Timer scenario after the overflow: TIMA reloaded from TMA and IF bit 2
raised. -/
def timerFired (s : Bus) : Prop :=
  s.io 0x07 = 0x05 ∧ s.io 0x05 = 0x42 ∧ s.io 0x06 = 0x42 ∧
  s.io 0x0F &&& 0x04 ≠ 0 ∧ s.timerCounter = 0

/-- Addresses whose write-then-read round trip returns the written byte on
any bus state: VRAM; mapped-and-enabled external RAM; WRAM, echo RAM and OAM;
I/O registers other than the joypad latch, DIV, STAT, LY and the APU-mapped
bytes 0xFF26 - 0xFF2F; and HRAM / IE. -/
def roundTripAddr (s : Bus) (addr : Nat) : Prop :=
  (0x8000 ≤ addr ∧ addr < 0xA000) ∨
  (0xA000 ≤ addr ∧ addr < 0xC000 ∧ s.ramEnabled = true ∧ s.extRamSize ≠ 0 ∧
    s.ramBank * 0x2000 + (addr - 0xA000) < s.extRamSize) ∨
  (0xC000 ≤ addr ∧ addr < 0xFEA0) ∨
  (0xFF00 ≤ addr ∧ addr < 0xFF80 ∧ addr ≠ 0xFF00 ∧ addr ≠ 0xFF04 ∧
    addr ≠ 0xFF41 ∧ addr ≠ 0xFF44 ∧ ¬ (0xFF26 ≤ addr ∧ addr ≤ 0xFF2F)) ∨
  (0xFF80 ≤ addr ∧ addr ≤ 0xFFFF)

instance (s : Bus) (addr : Nat) : Decidable (roundTripAddr s addr) := by
  unfold roundTripAddr; infer_instance

/-- A bus whose cartridge holds an EI opcode (0xFB) at the reset PC 0x0100,
with the VBlank interrupt enabled in IE; the constructor-default IF value
0xE1 already has the VBlank bit pending. -/
def eiTestBus : Bus :=
  { Memory.init with rom := fun a => if a = 0x100 then 0xFB else 0,
                     romSize := 0x8000, ie := 0x01 }

/-- A bus in the timer-overflow scenario of the specification: TAC = 0x05,
TIMA = 0xFF, TMA = 0x42, timer accumulator zero. -/
def timerTestBus : Bus :=
  { Memory.init with io := Function.update (Function.update (Function.update
      Memory.initIOregs 0x07 0x05) 0x05 0xFF) 0x06 0x42 }

/-! ## Helper lemmas -/

theorem eq_of_testBit_lt_pow (n x y : Nat) (hx : x < 2 ^ n) (hy : y < 2 ^ n)
    (h : ∀ i, i < n → x.testBit i = y.testBit i) : x = y := by
  apply Nat.eq_of_testBit_eq
  intro i
  rcases Nat.lt_or_ge i n with hi | hi
  · exact h i hi
  · have hx' : x.testBit i = false :=
      Nat.testBit_lt_two_pow (lt_of_lt_of_le hx (Nat.pow_le_pow_right (by norm_num) hi))
    have hy' : y.testBit i = false :=
      Nat.testBit_lt_two_pow (lt_of_lt_of_le hy (Nat.pow_le_pow_right (by norm_num) hi))
    rw [hx', hy']

theorem setMode_stat_mode (s mo : Nat) (hmo : mo ≤ 3) :
    ((s &&& 0xFC) ||| (mo &&& 0x03)) &&& 0x03 = mo := by
  apply eq_of_testBit_lt_pow 2
  · exact lt_of_le_of_lt Nat.and_le_right (by norm_num)
  · omega
  · intro i hi
    simp only [Nat.testBit_and, Nat.testBit_or]
    interval_cases i <;>
      simp [(by decide : Nat.testBit 252 0 = false),
            (by decide : Nat.testBit 252 1 = false),
            (by decide : Nat.testBit 3 0 = true),
            (by decide : Nat.testBit 3 1 = true)]

theorem setMode_stat_coincidence (s mo : Nat) :
    ((s &&& 0xFC) ||| (mo &&& 0x03)) &&& 0x04 = s &&& 0x04 := by
  apply eq_of_testBit_lt_pow 3
  · exact lt_of_le_of_lt Nat.and_le_right (by norm_num)
  · exact lt_of_le_of_lt Nat.and_le_right (by norm_num)
  · intro i hi
    simp only [Nat.testBit_and, Nat.testBit_or]
    interval_cases i <;>
      simp [(by decide : Nat.testBit 252 2 = true),
            (by decide : Nat.testBit 3 2 = false),
            (by decide : Nat.testBit 4 0 = false),
            (by decide : Nat.testBit 4 1 = false),
            (by decide : Nat.testBit 4 2 = true)]

theorem or4_stat_mode (s : Nat) : (s ||| 0x04) &&& 0x03 = s &&& 0x03 := by
  apply eq_of_testBit_lt_pow 2
  · exact lt_of_le_of_lt Nat.and_le_right (by norm_num)
  · exact lt_of_le_of_lt Nat.and_le_right (by norm_num)
  · intro i hi
    simp only [Nat.testBit_and, Nat.testBit_or]
    interval_cases i <;>
      simp [(by decide : Nat.testBit 4 0 = false),
            (by decide : Nat.testBit 4 1 = false)]

theorem or4_stat_coincidence (s : Nat) : (s ||| 0x04) &&& 0x04 = 0x04 := by
  apply eq_of_testBit_lt_pow 3
  · exact lt_of_le_of_lt Nat.and_le_right (by norm_num)
  · norm_num
  · intro i hi
    simp only [Nat.testBit_and, Nat.testBit_or]
    interval_cases i <;>
      simp [(by decide : Nat.testBit 4 0 = false),
            (by decide : Nat.testBit 4 1 = false),
            (by decide : Nat.testBit 4 2 = true)]

theorem and251_stat_mode (s : Nat) : (s &&& 0xFB) &&& 0x03 = s &&& 0x03 := by
  apply eq_of_testBit_lt_pow 2
  · exact lt_of_le_of_lt Nat.and_le_right (by norm_num)
  · exact lt_of_le_of_lt Nat.and_le_right (by norm_num)
  · intro i hi
    simp only [Nat.testBit_and]
    interval_cases i <;>
      simp [(by decide : Nat.testBit 251 0 = true),
            (by decide : Nat.testBit 251 1 = true)]

theorem and251_stat_coincidence (s : Nat) : (s &&& 0xFB) &&& 0x04 = 0 := by
  apply eq_of_testBit_lt_pow 3
  · exact lt_of_le_of_lt Nat.and_le_right (by norm_num)
  · norm_num
  · intro i hi
    simp only [Nat.testBit_and]
    interval_cases i <;>
      simp [(by decide : Nat.testBit 251 2 = false),
            (by decide : Nat.testBit 4 0 = false),
            (by decide : Nat.testBit 4 1 = false),
            (by decide : Nat.testBit 0 0 = false),
            (by decide : Nat.testBit 0 1 = false),
            (by decide : Nat.testBit 0 2 = false)]

theorem setMode_stat_lt (s mo : Nat) (hs : s < 256) :
    ((s &&& 0xFC) ||| (mo &&& 0x03)) < 256 :=
  Nat.or_lt_two_pow (n := 8) (lt_of_le_of_lt Nat.and_le_left hs)
    (lt_of_le_of_lt Nat.and_le_right (by norm_num))

theorem or4_stat_lt (s : Nat) (hs : s < 256) : (s ||| 0x04) < 256 :=
  Nat.or_lt_two_pow (n := 8) hs (by norm_num)

theorem and251_stat_lt (s : Nat) (hs : s < 256) : (s &&& 0xFB) < 256 :=
  lt_of_le_of_lt Nat.and_le_left hs

theorem joypad_mask (x : Nat) : (0xC0 ||| (x &&& 0x0F)) &&& 0xF0 = 0xC0 := by
  apply Nat.eq_of_testBit_eq
  intro i
  rcases Nat.lt_or_ge i 8 with hi | hi
  · interval_cases i <;>
      simp [Nat.testBit_and, Nat.testBit_or,
        (by decide : Nat.testBit 0xC0 0 = false), (by decide : Nat.testBit 0xC0 1 = false),
        (by decide : Nat.testBit 0xC0 2 = false), (by decide : Nat.testBit 0xC0 3 = false),
        (by decide : Nat.testBit 0xC0 4 = false), (by decide : Nat.testBit 0xC0 5 = false),
        (by decide : Nat.testBit 0xC0 6 = true), (by decide : Nat.testBit 0xC0 7 = true),
        (by decide : Nat.testBit 0xF0 0 = false), (by decide : Nat.testBit 0xF0 1 = false),
        (by decide : Nat.testBit 0xF0 2 = false), (by decide : Nat.testBit 0xF0 3 = false),
        (by decide : Nat.testBit 0xF0 4 = true), (by decide : Nat.testBit 0xF0 5 = true),
        (by decide : Nat.testBit 0xF0 6 = true), (by decide : Nat.testBit 0xF0 7 = true),
        (by decide : Nat.testBit 0x0F 0 = true), (by decide : Nat.testBit 0x0F 1 = true),
        (by decide : Nat.testBit 0x0F 2 = true), (by decide : Nat.testBit 0x0F 3 = true),
        (by decide : Nat.testBit 0x0F 4 = false), (by decide : Nat.testBit 0x0F 5 = false),
        (by decide : Nat.testBit 0x0F 6 = false), (by decide : Nat.testBit 0x0F 7 = false)]
  · have hC : Nat.testBit 0xC0 i = false :=
      Nat.testBit_lt_two_pow (lt_of_lt_of_le (by norm_num)
        (Nat.pow_le_pow_right (by norm_num) hi))
    have hF : Nat.testBit 0xF0 i = false :=
      Nat.testBit_lt_two_pow (lt_of_lt_of_le (by norm_num)
        (Nat.pow_le_pow_right (by norm_num) hi))
    simp [Nat.testBit_and, Nat.testBit_or, hC, hF]

theorem PPU.setMode_def (p : PPUState) (io : Nat → Nat) (mo : Nat) :
    PPU.setMode p io mo =
      ({ p with mode := mo, stat := (p.stat &&& 0xFC) ||| (mo &&& 0x03) },
       PPU.checkSTATInterrupt
         { p with mode := mo, stat := (p.stat &&& 0xFC) ||| (mo &&& 0x03) } io) :=
  rfl

theorem invariant_after_setMode (p : PPUState) (io : Nat → Nat) (mo : Nat)
    (hmo : mo ≤ 3) (hstat : p.stat < 256)
    (hiff : p.stat &&& 0x04 ≠ 0 ↔ p.ly = p.lyc)
    (hly : p.ly ≤ 153) (hm1 : mo = 1 ↔ 144 ≤ p.ly) :
    PPU.invariant (PPU.setMode p io mo).1 ∧ (PPU.setMode p io mo).1.stat < 256 := by
  rw [PPU.setMode_def]
  refine ⟨⟨setMode_stat_mode _ _ hmo, ?_, hly, hm1⟩, setMode_stat_lt _ _ hstat⟩
  show ((p.stat &&& 0xFC) ||| (mo &&& 0x03)) &&& 0x04 ≠ 0 ↔ p.ly = p.lyc
  rw [setMode_stat_coincidence]
  exact hiff

theorem invariant_after_checkLYC (p : PPUState) (io : Nat → Nat)
    (hstat : p.stat < 256) (hmode : p.stat &&& 0x03 = p.mode)
    (hly : p.ly ≤ 153) (hm1 : p.mode = 1 ↔ 144 ≤ p.ly) :
    PPU.invariant (PPU.checkLYC p io).1 ∧ (PPU.checkLYC p io).1.stat < 256 := by
  unfold PPU.checkLYC
  dsimp only
  split
  · next heq =>
    refine ⟨⟨?_, ?_, hly, hm1⟩, or4_stat_lt _ hstat⟩
    · rw [or4_stat_mode]; exact hmode
    · rw [or4_stat_coincidence]; simp [heq]
  · next hne =>
    refine ⟨⟨?_, ?_, hly, hm1⟩, and251_stat_lt _ hstat⟩
    · rw [and251_stat_mode]; exact hmode
    · rw [and251_stat_coincidence]; simp [hne]

theorem handleMBCWrite_io (s : Bus) (addr val : Nat) :
    (Bus.handleMBCWrite s addr val).io = s.io := by
  unfold Bus.handleMBCWrite
  split_ifs <;> rfl

set_option maxHeartbeats 1600000 in
theorem getIF_write_ne (s : Bus) (addr val : Nat)
    (h0F : addr ≠ 0xFF0F) (h40 : addr ≠ 0xFF40) :
    Bus.getIF (Bus.write s addr val) = Bus.getIF s := by
  unfold Bus.write Bus.getIF
  rcases Nat.lt_or_ge addr 0x8000 with h1 | h1
  · simp only [if_pos h1]
    exact congrFun (handleMBCWrite_io s addr val) 0x0F
  rcases Nat.lt_or_ge addr 0xA000 with h2 | h2
  · simp only [if_neg (by omega : ¬ addr < 0x8000), if_pos h2]
  rcases Nat.lt_or_ge addr 0xC000 with h3 | h3
  · simp only [if_neg (by omega : ¬ addr < 0x8000), if_neg (by omega : ¬ addr < 0xA000),
      if_pos h3]
    split_ifs <;> rfl
  rcases Nat.lt_or_ge addr 0xE000 with h4 | h4
  · simp only [if_neg (by omega : ¬ addr < 0x8000), if_neg (by omega : ¬ addr < 0xA000),
      if_neg (by omega : ¬ addr < 0xC000), if_pos h4]
  rcases Nat.lt_or_ge addr 0xFE00 with h5 | h5
  · simp only [if_neg (by omega : ¬ addr < 0x8000), if_neg (by omega : ¬ addr < 0xA000),
      if_neg (by omega : ¬ addr < 0xC000), if_neg (by omega : ¬ addr < 0xE000), if_pos h5]
  rcases Nat.lt_or_ge addr 0xFEA0 with h6 | h6
  · simp only [if_neg (by omega : ¬ addr < 0x8000), if_neg (by omega : ¬ addr < 0xA000),
      if_neg (by omega : ¬ addr < 0xC000), if_neg (by omega : ¬ addr < 0xE000),
      if_neg (by omega : ¬ addr < 0xFE00), if_pos h6]
  rcases Nat.lt_or_ge addr 0xFF00 with h7 | h7
  · simp only [if_neg (by omega : ¬ addr < 0x8000), if_neg (by omega : ¬ addr < 0xA000),
      if_neg (by omega : ¬ addr < 0xC000), if_neg (by omega : ¬ addr < 0xE000),
      if_neg (by omega : ¬ addr < 0xFE00), if_neg (by omega : ¬ addr < 0xFEA0), if_pos h7]
  rcases Nat.lt_or_ge addr 0xFF80 with h8 | h8
  · simp only [if_neg (by omega : ¬ addr < 0x8000), if_neg (by omega : ¬ addr < 0xA000),
      if_neg (by omega : ¬ addr < 0xC000), if_neg (by omega : ¬ addr < 0xE000),
      if_neg (by omega : ¬ addr < 0xFE00), if_neg (by omega : ¬ addr < 0xFEA0),
      if_neg (by omega : ¬ addr < 0xFF00), if_pos h8]
    by_cases r0 : addr - 0xFF00 = 0x00
    · simp only [if_pos r0, Function.update_apply, if_neg (by omega : ¬ (0x0F : Nat) = 0x00)]
    by_cases r4 : addr - 0xFF00 = 0x04
    · simp only [if_neg r0, if_pos r4, Function.update_apply,
        if_neg (by omega : ¬ (0x0F : Nat) = 0x04)]
    by_cases r40 : addr - 0xFF00 = 0x40
    · exact absurd (by omega : addr = 0xFF40) h40
    by_cases r41 : addr - 0xFF00 = 0x41
    · simp only [if_neg r0, if_neg r4, if_neg r40, if_pos r41, Function.update_apply,
        if_neg (by omega : ¬ (0x0F : Nat) = 0x41)]
    by_cases r44 : addr - 0xFF00 = 0x44
    · simp only [if_neg r0, if_neg r4, if_neg r40, if_neg r41, if_pos r44]
    by_cases r46 : addr - 0xFF00 = 0x46
    · simp only [if_neg r0, if_neg r4, if_neg r40, if_neg r41, if_neg r44, if_pos r46,
        Function.update_apply, if_neg (by omega : ¬ (0x0F : Nat) = 0x46)]
    by_cases rap : 0x10 ≤ addr - 0xFF00 ∧ addr - 0xFF00 ≤ 0x3F
    · simp only [if_neg r0, if_neg r4, if_neg r40, if_neg r41, if_neg r44, if_neg r46,
        if_pos rap, Function.update_apply]
      rw [if_neg (by omega)]
    · simp only [if_neg r0, if_neg r4, if_neg r40, if_neg r41, if_neg r44, if_neg r46,
        if_neg rap, Function.update_apply]
      rw [if_neg (by omega)]
  rcases Nat.lt_or_ge addr 0xFFFF with h9 | h9
  · simp only [if_neg (by omega : ¬ addr < 0x8000), if_neg (by omega : ¬ addr < 0xA000),
      if_neg (by omega : ¬ addr < 0xC000), if_neg (by omega : ¬ addr < 0xE000),
      if_neg (by omega : ¬ addr < 0xFE00), if_neg (by omega : ¬ addr < 0xFEA0),
      if_neg (by omega : ¬ addr < 0xFF00), if_neg (by omega : ¬ addr < 0xFF80), if_pos h9]
  · simp only [if_neg (by omega : ¬ addr < 0x8000), if_neg (by omega : ¬ addr < 0xA000),
      if_neg (by omega : ¬ addr < 0xC000), if_neg (by omega : ¬ addr < 0xE000),
      if_neg (by omega : ¬ addr < 0xFE00), if_neg (by omega : ¬ addr < 0xFEA0),
      if_neg (by omega : ¬ addr < 0xFF00), if_neg (by omega : ¬ addr < 0xFF80),
      if_neg (by omega : ¬ addr < 0xFFFF)]

theorem divLoop_frame : ∀ (n : Nat) (s : Bus), s.divCounter ≤ n →
    (Bus.divLoop s).timerCounter = s.timerCounter ∧
    (Bus.divLoop s).io 0x05 = s.io 0x05 ∧
    (Bus.divLoop s).io 0x06 = s.io 0x06 ∧
    (Bus.divLoop s).io 0x07 = s.io 0x07 ∧
    (Bus.divLoop s).io 0x0F = s.io 0x0F := by
  intro n
  induction n with
  | zero =>
    intro s hs
    rw [Bus.divLoop]
    rw [dif_neg (by omega)]
    exact ⟨rfl, rfl, rfl, rfl, rfl⟩
  | succ n ih =>
    intro s hs
    rw [Bus.divLoop]
    by_cases h : 256 ≤ s.divCounter
    · rw [dif_pos h]
      have hrec := ih { s with divCounter := s.divCounter - 256,
                               io := Function.update s.io 0x04 ((s.io 0x04 + 1) % 256) }
        (by dsimp only; omega)
      obtain ⟨h1, h2, h3, h4, h5⟩ := hrec
      refine ⟨h1, ?_, ?_, ?_, ?_⟩ <;>
        first
        | (rw [h2]; dsimp only; rw [Function.update_apply, if_neg (by omega)])
        | (rw [h3]; dsimp only; rw [Function.update_apply, if_neg (by omega)])
        | (rw [h4]; dsimp only; rw [Function.update_apply, if_neg (by omega)])
        | (rw [h5]; dsimp only; rw [Function.update_apply, if_neg (by omega)])
    · rw [dif_neg h]
      exact ⟨rfl, rfl, rfl, rfl, rfl⟩

theorem timaTick_overflow (t : Bus) (freq : Nat) (h : t.io 0x05 = 0xFF) :
    (Bus.timaTick t freq).io 0x05 = t.io 0x06 ∧
    (Bus.timaTick t freq).io 0x0F &&& 0x04 ≠ 0 ∧
    (Bus.timaTick t freq).io 0x07 = t.io 0x07 ∧
    (Bus.timaTick t freq).io 0x06 = t.io 0x06 ∧
    (Bus.timaTick t freq).timerCounter = t.timerCounter - freq := by
  unfold Bus.timaTick
  dsimp only
  rw [if_pos (by rw [Function.update_same, h])]
  refine ⟨?_, ?_, ?_, ?_, rfl⟩
  · dsimp only
    rw [Function.update_apply, if_neg (by omega), Function.update_same,
        Function.update_apply, if_neg (by omega)]
  · dsimp only
    rw [Function.update_same, or4_stat_coincidence]
    omega
  · dsimp only
    rw [Function.update_apply, if_neg (by omega), Function.update_apply,
        if_neg (by omega), Function.update_apply, if_neg (by omega)]
  · dsimp only
    rw [Function.update_apply, if_neg (by omega), Function.update_apply,
        if_neg (by omega), Function.update_apply, if_neg (by omega)]

theorem updateTimer_armed_step (s : Bus) (c k : Nat) (hA : timerArmed s k)
    (hlt : k + c < 16) : timerArmed (Bus.updateTimer s c) (k + c) := by
  obtain ⟨h7, h5, h6, hk⟩ := hA
  unfold Bus.updateTimer
  dsimp only
  obtain ⟨d1, d2, d3, d4, d5⟩ := divLoop_frame
    ({ s with divCounter := s.divCounter + c } : Bus).divCounter
    { s with divCounter := s.divCounter + c } (le_refl _)
  rw [if_neg (by rw [d4]; dsimp only; rw [h7]; decide)]
  have hfreq : Bus.getTimerFrequency
      { Bus.divLoop { s with divCounter := s.divCounter + c } with
        timerCounter := (Bus.divLoop { s with divCounter := s.divCounter + c }).timerCounter + c } = 16 := by
    unfold Bus.getTimerFrequency
    dsimp only
    rw [d4]
    dsimp only
    rw [h7]
    decide
  rw [hfreq]
  rw [Bus.timaLoop]
  rw [dif_neg (by dsimp only; rw [d1]; dsimp only; omega)]
  refine ⟨?_, ?_, ?_, ?_⟩
  · show (Bus.divLoop _).io 0x07 = 0x05
    rw [d4]; dsimp only; exact h7
  · show (Bus.divLoop _).io 0x05 = 0xFF
    rw [d2]; dsimp only; exact h5
  · show (Bus.divLoop _).io 0x06 = 0x42
    rw [d3]; dsimp only; exact h6
  · show (Bus.divLoop _).timerCounter + c = k + c
    rw [d1]; dsimp only; omega

theorem updateTimer_fires (s : Bus) (c k : Nat) (hA : timerArmed s k)
    (heq : k + c = 16) : timerFired (Bus.updateTimer s c) := by
  obtain ⟨h7, h5, h6, hk⟩ := hA
  unfold Bus.updateTimer
  dsimp only
  obtain ⟨d1, d2, d3, d4, d5⟩ := divLoop_frame
    ({ s with divCounter := s.divCounter + c } : Bus).divCounter
    { s with divCounter := s.divCounter + c } (le_refl _)
  rw [if_neg (by rw [d4]; dsimp only; rw [h7]; decide)]
  have hfreq : Bus.getTimerFrequency
      { Bus.divLoop { s with divCounter := s.divCounter + c } with
        timerCounter := (Bus.divLoop { s with divCounter := s.divCounter + c }).timerCounter + c } = 16 := by
    unfold Bus.getTimerFrequency
    dsimp only
    rw [d4]
    dsimp only
    rw [h7]
    decide
  rw [hfreq]
  rw [Bus.timaLoop]
  rw [dif_pos (by refine ⟨by norm_num, ?_⟩; dsimp only; rw [d1]; dsimp only; omega)]
  obtain ⟨t5, tF, t7, t6, tc⟩ := timaTick_overflow
    { Bus.divLoop { s with divCounter := s.divCounter + c } with
      timerCounter := (Bus.divLoop { s with divCounter := s.divCounter + c }).timerCounter + c } 16
    (by show (Bus.divLoop _).io 0x05 = 0xFF; rw [d2]; dsimp only; exact h5)
  rw [Bus.timaLoop]
  rw [dif_neg (by rw [tc]; dsimp only; rw [d1]; dsimp only; omega)]
  refine ⟨?_, ?_, ?_, ?_, ?_⟩
  · rw [t7]; show (Bus.divLoop _).io 0x07 = 0x05; rw [d4]; dsimp only; exact h7
  · rw [t5]; show (Bus.divLoop _).io 0x06 = 0x42; rw [d3]; dsimp only; exact h6
  · rw [t6]; show (Bus.divLoop _).io 0x06 = 0x42; rw [d3]; dsimp only; exact h6
  · exact tF
  · rw [tc]; dsimp only; rw [d1]; dsimp only; omega

theorem updateTimer_fired_zero (s : Bus) (hB : timerFired s) :
    timerFired (Bus.updateTimer s 0) := by
  obtain ⟨h7, h5, h6, hF, hc⟩ := hB
  unfold Bus.updateTimer
  dsimp only
  obtain ⟨d1, d2, d3, d4, d5⟩ := divLoop_frame
    ({ s with divCounter := s.divCounter + 0 } : Bus).divCounter
    { s with divCounter := s.divCounter + 0 } (le_refl _)
  rw [if_neg (by rw [d4]; dsimp only; rw [h7]; decide)]
  have hfreq : Bus.getTimerFrequency
      { Bus.divLoop { s with divCounter := s.divCounter + 0 } with
        timerCounter := (Bus.divLoop { s with divCounter := s.divCounter + 0 }).timerCounter + 0 } = 16 := by
    unfold Bus.getTimerFrequency
    dsimp only
    rw [d4]
    dsimp only
    rw [h7]
    decide
  rw [hfreq]
  rw [Bus.timaLoop]
  rw [dif_neg (by dsimp only; rw [d1]; dsimp only; omega)]
  refine ⟨?_, ?_, ?_, ?_, ?_⟩
  · show (Bus.divLoop _).io 0x07 = 0x05
    rw [d4]; dsimp only; exact h7
  · show (Bus.divLoop _).io 0x05 = 0x42
    rw [d2]; dsimp only; exact h5
  · show (Bus.divLoop _).io 0x06 = 0x42
    rw [d3]; dsimp only; exact h6
  · show (Bus.divLoop _).io 0x0F &&& 0x04 ≠ 0
    rw [d5]; dsimp only; exact hF
  · show (Bus.divLoop _).timerCounter + 0 = 0
    rw [d1]; dsimp only; omega

theorem foldl_fired_zero (cys : List Nat) : ∀ (s : Bus), timerFired s →
    cys.sum = 0 → timerFired (cys.foldl Bus.updateTimer s) := by
  induction cys with
  | nil => intro s hB _; exact hB
  | cons c rest ih =>
    intro s hB hsum
    have hc : c = 0 := by
      have := List.sum_cons (a := c) (l := rest)
      omega
    subst hc
    exact ih _ (updateTimer_fired_zero s hB) (by simpa using hsum)

theorem foldl_armed_fires (cys : List Nat) : ∀ (s : Bus) (k : Nat),
    timerArmed s k → k < 16 → k + cys.sum = 16 →
    timerFired (cys.foldl Bus.updateTimer s) := by
  induction cys with
  | nil =>
    intro s k _ hk hsum
    simp at hsum
    omega
  | cons c rest ih =>
    intro s k hA hk hsum
    rcases Nat.lt_or_ge (k + c) 16 with hlt | hge
    · exact ih _ (k + c) (updateTimer_armed_step s c k hA hlt) hlt
        (by simp [List.sum_cons] at hsum; omega)
    · have hsc : List.sum (c :: rest) = c + rest.sum := List.sum_cons
      have heq : k + c = 16 := by omega
      have hrest : rest.sum = 0 := by omega
      exact foldl_fired_zero rest _ (updateTimer_fires s c k hA heq) hrest

theorem read_ignores_dmaCycles (s : Bus) (k addr : Nat) :
    Bus.read { s with dmaCycles := k } addr = Bus.read s addr := rfl

theorem updateDMA_inactive (s : Bus) (c : Nat) (h : s.dmaActive = false) :
    Bus.updateDMA s c = s := by
  unfold Bus.updateDMA
  rw [if_pos h]

theorem foldl_updateDMA_inactive (cys : List Nat) : ∀ (s : Bus),
    s.dmaActive = false → cys.foldl Bus.updateDMA s = s := by
  induction cys with
  | nil => intro s _; rfl
  | cons c rest ih =>
    intro s h
    show rest.foldl Bus.updateDMA (Bus.updateDMA s c) = s
    rw [updateDMA_inactive s c h]
    exact ih s h

theorem updateDMA_active (s : Bus) (c : Nat) (h : s.dmaActive = true) :
    Bus.updateDMA s c =
      (if 640 ≤ s.dmaCycles + c then
         { s with dmaCycles := s.dmaCycles + c,
                  oam := fun i => if i < 160 then
                      Bus.read { s with dmaCycles := s.dmaCycles + c }
                        (s.dmaSource + i)
                    else s.oam i,
                  dmaActive := false }
       else { s with dmaCycles := s.dmaCycles + c }) := by
  unfold Bus.updateDMA
  rw [if_neg (by rw [h]; simp)]

theorem dma_fold (cys : List Nat) : ∀ (s : Bus),
    s.dmaActive = true → s.dmaCycles < 640 → 640 ≤ s.dmaCycles + cys.sum →
    (cys.foldl Bus.updateDMA s).dmaActive = false ∧
    ∀ i, i < 160 →
      (cys.foldl Bus.updateDMA s).oam i = Bus.read s (s.dmaSource + i) := by
  induction cys with
  | nil =>
    intro s _ hlt hge
    simp at hge
    omega
  | cons c rest ih =>
    intro s hact hlt hge
    show (rest.foldl Bus.updateDMA (Bus.updateDMA s c)).dmaActive = false ∧
      ∀ i, i < 160 →
        (rest.foldl Bus.updateDMA (Bus.updateDMA s c)).oam i =
          Bus.read s (s.dmaSource + i)
    rw [updateDMA_active s c hact]
    by_cases hc : 640 ≤ s.dmaCycles + c
    · rw [if_pos hc]
      rw [foldl_updateDMA_inactive rest _ rfl]
      refine ⟨rfl, ?_⟩
      intro i hi
      show (if i < 160 then Bus.read { s with dmaCycles := s.dmaCycles + c }
              (s.dmaSource + i)
            else s.oam i) = Bus.read s (s.dmaSource + i)
      rw [if_pos hi, read_ignores_dmaCycles]
    · rw [if_neg hc]
      have hrec := ih { s with dmaCycles := s.dmaCycles + c } hact
        (by dsimp only; omega)
        (by dsimp only
            have : (c :: rest).sum = c + rest.sum := List.sum_cons
            omega)
      obtain ⟨ha, hoam⟩ := hrec
      refine ⟨ha, ?_⟩
      intro i hi
      rw [hoam i hi, read_ignores_dmaCycles]

theorem write_ff46 (s : Bus) (page : Nat) :
    Bus.write s 0xFF46 page =
      { s with dmaActive := true, dmaCycles := 0, dmaSource := page <<< 8,
               io := Function.update s.io 0x46 page } := rfl

set_option maxHeartbeats 3200000 in
theorem apu_write_read_roundtrip (a : APUState) (reg val : Nat)
    (h1 : 0x10 ≤ reg) (h2 : reg ≤ 0x3F) (hne : ¬ (0x26 ≤ reg ∧ reg ≤ 0x2F)) :
    APU.readRegister (APU.writeRegister a reg val) reg = val := by
  interval_cases reg <;> try (exfalso; revert hne; decide)
  all_goals
    (simp [APU.writeRegister, APU.readRegister, APU.triggerChannel1,
           APU.triggerChannel2, APU.triggerChannel3, APU.triggerChannel4,
           Function.update]
     try (split_ifs <;> simp [Function.update]))

/-! ## Claims -/

set_option maxHeartbeats 1600000 in
set_option maxRecDepth 4000 in
/-- C1: when IME is set and IF AND IE AND 0x1F is non-zero, CPU.step clears IME,
clears halted, pushes PC (SP drops by 2 modulo 2^16), jumps to the priority
vector of the highest-priority pending bit, clears exactly that bit in IF
(provided the stack push does not alias IF or LCDC), and returns 20 clocks
without executing an instruction. -/
theorem claim_C1_interrupt_dispatch (cpu : CPUState) (m : Bus)
    (hime : cpu.ime = true)
    (hp : Bus.getIF m &&& Bus.getIE m &&& 0x1F ≠ 0) :
    (CPU.step cpu m =
      ({ cpu with ime := false, imeScheduled := false, halted := false,
                  sp := (cpu.sp + 65534) % 65536,
                  pc := CPU.interruptVector (Bus.getIF m &&& Bus.getIE m &&& 0x1F) },
       CPU.write16
         (Bus.setIF m (Bus.getIF m &&&
           (0xFF - CPU.interruptBit (Bus.getIF m &&& Bus.getIE m &&& 0x1F))))
         ((cpu.sp + 65534) % 65536) cpu.pc,
       20)) ∧
    ((cpu.sp + 65534) % 65536 ≠ 0xFF0F →
     ((cpu.sp + 65534) % 65536 + 1) % 65536 ≠ 0xFF0F →
     (cpu.sp + 65534) % 65536 ≠ 0xFF40 →
     ((cpu.sp + 65534) % 65536 + 1) % 65536 ≠ 0xFF40 →
      Bus.getIF (CPU.step cpu m).2.1 =
        Bus.getIF m &&&
          (0xFF - CPU.interruptBit (Bus.getIF m &&& Bus.getIE m &&& 0x1F))) := by
  have hmain : CPU.step cpu m =
      ({ cpu with ime := false, imeScheduled := false, halted := false,
                  sp := (cpu.sp + 65534) % 65536,
                  pc := CPU.interruptVector (Bus.getIF m &&& Bus.getIE m &&& 0x1F) },
       CPU.write16
         (Bus.setIF m (Bus.getIF m &&&
           (0xFF - CPU.interruptBit (Bus.getIF m &&& Bus.getIE m &&& 0x1F))))
         ((cpu.sp + 65534) % 65536) cpu.pc,
       20) := by
    unfold CPU.step CPU.handleInterrupts CPU.push16
    dsimp only
    by_cases hs : cpu.imeScheduled
    · rw [if_pos hs, if_pos hp]
      dsimp only
      rw [if_pos (rfl :
        ({ cpu with ime := true, imeScheduled := false } : CPUState).ime = true)]
      dsimp only
      rw [if_pos (by norm_num : (0:Nat) < 20)]
    · rw [if_neg hs, if_pos hp]
      rw [if_pos hime]
      dsimp only
      rw [if_pos (by norm_num : (0:Nat) < 20)]
      simp only [Bool.not_eq_true] at hs
      rw [hs]
  refine ⟨hmain, ?_⟩
  intro h1 h2 h3 h4
  rw [hmain]
  dsimp only
  unfold CPU.write16 CPU.write8
  rw [getIF_write_ne _ _ _ h2 h4, getIF_write_ne _ _ _ h1 h3]
  unfold Bus.getIF Bus.setIF
  dsimp only
  rw [Function.update_same]

theorem claim_C1_witness :
    ({ CPU.reset with ime := true } : CPUState).ime = true ∧
    Bus.getIF { Memory.init with ie := 0x1F } &&&
      Bus.getIE { Memory.init with ie := 0x1F } &&& 0x1F ≠ 0 ∧
    (CPU.step { CPU.reset with ime := true } { Memory.init with ie := 0x1F }).2.2 = 20 ∧
    (CPU.step { CPU.reset with ime := true } { Memory.init with ie := 0x1F }).1.pc = 0x40 ∧
    (CPU.step { CPU.reset with ime := true } { Memory.init with ie := 0x1F }).1.ime = false ∧
    (CPU.step { CPU.reset with ime := true } { Memory.init with ie := 0x1F }).1.sp = 0xFFFC := by
  have h := claim_C1_interrupt_dispatch { CPU.reset with ime := true }
    { Memory.init with ie := 0x1F } rfl (by decide)
  refine ⟨rfl, by decide, ?_, ?_, ?_, ?_⟩ <;> rw [h.1] <;> decide

/-- C2 counterexample: immediately after PPU reset the claimed invariant
fails: the mode field is 2 but the STAT byte is left at 0, so STAT AND 0x03
is 0, not the mode. -/
theorem claim_C2_counterexample :
    PPU.reset.mode = 2 ∧ PPU.reset.stat &&& 0x03 = 0 := by decide

/-- C2 (amended): the PPU invariant (STAT low bits mirror mode, STAT bit 2
mirrors LY = LYC, LY at most 153, mode 1 exactly on lines 144 and up) is
preserved by PPU.step from any state already satisfying it whose STAT byte
is in range and whose LYC register mirrors io 0x45; it does not hold at
reset itself. -/
theorem claim_C2_amended (p : PPUState) (io : Nat → Nat) (cycles : Nat)
    (hstat : p.stat < 256) (hinv : PPU.invariant p) (hlyc : io 0x45 = p.lyc) :
    PPU.invariant (PPU.step p io cycles).1 ∧ (PPU.step p io cycles).1.stat < 256 := by
  obtain ⟨hmode, hiff, hly, hm1⟩ := hinv
  have hmle : p.mode ≤ 3 := by rw [← hmode]; exact Nat.and_le_right
  unfold PPU.step
  dsimp only
  split
  · exact ⟨⟨hmode, by rw [hlyc]; exact hiff, hly, hm1⟩, hstat⟩
  · split
    · next hm =>
      have hnot1 : ¬ 144 ≤ p.ly := fun hh => by
        have := hm1.mpr hh; omega
      split
      · exact invariant_after_setMode _ _ _ (by norm_num) hstat
          (by rw [hlyc]; exact hiff) hly
          (by constructor
              · intro hh; exact absurd hh (by norm_num)
              · intro hh; exact absurd hh hnot1)
      · exact ⟨⟨hmode, by rw [hlyc]; exact hiff, hly, hm1⟩, hstat⟩
    · next hm =>
      have hnot1 : ¬ 144 ≤ p.ly := fun hh => by
        have := hm1.mpr hh; omega
      split
      · exact invariant_after_setMode _ _ _ (by norm_num) hstat
          (by rw [hlyc]; exact hiff) hly
          (by constructor
              · intro hh; exact absurd hh (by norm_num)
              · intro hh; exact absurd hh hnot1)
      · exact ⟨⟨hmode, by rw [hlyc]; exact hiff, hly, hm1⟩, hstat⟩
    · next hm =>
      have hnot1 : ¬ 144 ≤ p.ly := fun hh => by
        have h1 := hm1.mpr hh; omega
      have hmod : (p.ly + 1) % 256 = p.ly + 1 := Nat.mod_eq_of_lt (by omega)
      split
      · rw [PPU.setMode_def]
        dsimp only
        split
        · next h144 =>
          refine invariant_after_checkLYC _ _ ?_ ?_ ?_ ?_
          · exact setMode_stat_lt _ _ hstat
          · exact setMode_stat_mode _ _ (by norm_num)
          · show (p.ly + 1) % 256 ≤ 153
            omega
          · show (1 : Nat) = 1 ↔ 144 ≤ (p.ly + 1) % 256
            rw [hmod] at h144 ⊢
            omega
        · next h144 =>
          refine invariant_after_checkLYC _ _ ?_ ?_ ?_ ?_
          · exact setMode_stat_lt _ _ hstat
          · exact setMode_stat_mode _ _ (by norm_num)
          · show (p.ly + 1) % 256 ≤ 153
            omega
          · show (2 : Nat) = 1 ↔ 144 ≤ (p.ly + 1) % 256
            rw [hmod] at h144 ⊢
            omega
      · exact ⟨⟨hmode, by rw [hlyc]; exact hiff, hly, hm1⟩, hstat⟩
    · next hm =>
      have h144 : 144 ≤ p.ly := hm1.mp hm
      have hmod : (p.ly + 1) % 256 = p.ly + 1 := Nat.mod_eq_of_lt (by omega)
      split
      · split
        · next hgt =>
          rw [PPU.setMode_def]
          dsimp only
          refine invariant_after_checkLYC _ _ ?_ ?_ ?_ ?_
          · exact setMode_stat_lt _ _ hstat
          · exact setMode_stat_mode _ _ (by norm_num)
          · show (0 : Nat) ≤ 153
            omega
          · show (2 : Nat) = 1 ↔ 144 ≤ (0 : Nat)
            omega
        · next hle =>
          refine invariant_after_checkLYC _ _ ?_ ?_ ?_ ?_
          · exact hstat
          · exact hmode
          · show (p.ly + 1) % 256 ≤ 153
            rw [hmod] at hle ⊢
            omega
          · show p.mode = 1 ↔ 144 ≤ (p.ly + 1) % 256
            rw [hmod]
            constructor
            · intro _; omega
            · intro _; exact hm
      · exact ⟨⟨hmode, by rw [hlyc]; exact hiff, hly, hm1⟩, hstat⟩
    · next h0 h1 h2 h3 =>
      have g0 : p.mode ≠ 2 := h0
      have g1 : p.mode ≠ 3 := h1
      have g2 : p.mode ≠ 0 := h2
      have g3 : p.mode ≠ 1 := h3
      omega

theorem claim_C2_witness :
    ({ PPU.reset with stat := 0x06 } : PPUState).stat < 256 ∧
    PPU.invariant { PPU.reset with stat := 0x06 } ∧
    Memory.initIOregs 0x45 = ({ PPU.reset with stat := 0x06 } : PPUState).lyc ∧
    PPU.invariant (PPU.step { PPU.reset with stat := 0x06 } Memory.initIOregs 4).1 ∧
    (PPU.step { PPU.reset with stat := 0x06 } Memory.initIOregs 4).1.stat < 256 := by
  have h := claim_C2_amended { PPU.reset with stat := 0x06 } Memory.initIOregs 4
    (by decide) (by decide) (by decide)
  exact ⟨by decide, by decide, by decide, h.1, h.2⟩

/-- C3 counterexample: writing 0x30 to 0xFF00 latches bits 4-5 as 0x30, yet
the subsequent read returns a byte whose bits 4-5 are zero, so the read does
not reproduce the latched select bits. -/
theorem claim_C3_counterexample :
    (Bus.write Memory.init 0xFF00 0x30).io 0x00 &&& 0x30 = 0x30 ∧
    Bus.read (Bus.write Memory.init 0xFF00 0x30) 0xFF00 &&& 0x30 = 0 := by decide

/-- C3 (amended): a read of 0xFF00 always has the upper two bits set and
bits 4-5 clear; when the d-pad row is selected (bit 4 low) the low nybble is
the d-pad nybble, otherwise when the button row is selected (bit 5 low) it
is the buttons nybble, and with neither row selected the byte is 0xCF — the
d-pad row takes priority over the button row rather than AND-combining. -/
theorem claim_C3_amended (s : Bus) :
    Bus.read s 0xFF00 =
      (if s.io 0x00 &&& 0x10 = 0 then 0xC0 ||| (s.joypadDpad &&& 0x0F)
       else if s.io 0x00 &&& 0x20 = 0 then 0xC0 ||| (s.joypadButtons &&& 0x0F)
       else 0xCF) := by
  show Bus.readJoypad s = _
  unfold Bus.readJoypad
  dsimp only
  have h20 : (s.io 0x00 &&& 0x30) &&& 0x20 = s.io 0x00 &&& 0x20 := by
    rw [Nat.and_assoc]
    exact congrArg (fun t => s.io 0x00 &&& t) (by decide)
  have h10 : (s.io 0x00 &&& 0x30) &&& 0x10 = s.io 0x00 &&& 0x10 := by
    rw [Nat.and_assoc]
    exact congrArg (fun t => s.io 0x00 &&& t) (by decide)
  rw [h20, h10]
  split_ifs <;>
    first
      | rfl
      | (show (0xC0 ||| (s.joypadButtons &&& 0x0F)) &&& 0xF0 ||| s.joypadDpad &&& 0x0F =
            0xC0 ||| (s.joypadDpad &&& 0x0F)
         rw [joypad_mask])

/-- C4: with TAC = 0x05, TIMA = 0xFF, TMA = 0x42 and the timer accumulator
at zero, feeding updateTimer a total of 16 clocks leaves TIMA = 0x42 with IF
bit 2 set; and in general any timaTick on a state with TIMA = 0xFF reloads
TIMA from TMA and sets IF bit 2. -/
theorem claim_C4_timer_overflow (cys : List Nat) (s : Bus)
    (h7 : s.io 0x07 = 0x05) (h5 : s.io 0x05 = 0xFF) (h6 : s.io 0x06 = 0x42)
    (hc : s.timerCounter = 0) (hsum : cys.sum = 16) :
    ((cys.foldl Bus.updateTimer s).io 0x05 = 0x42 ∧
     (cys.foldl Bus.updateTimer s).io 0x0F &&& 0x04 ≠ 0) ∧
    (∀ (t : Bus) (freq : Nat), t.io 0x05 = 0xFF →
      (Bus.timaTick t freq).io 0x05 = t.io 0x06 ∧
      (Bus.timaTick t freq).io 0x0F &&& 0x04 ≠ 0) := by
  have hfired := foldl_armed_fires cys s 0 ⟨h7, h5, h6, hc⟩ (by norm_num) (by omega)
  exact ⟨⟨hfired.2.1, hfired.2.2.2.1⟩, fun t freq h =>
    ⟨(timaTick_overflow t freq h).1, (timaTick_overflow t freq h).2.1⟩⟩

theorem claim_C4_witness :
    timerTestBus.io 0x07 = 0x05 ∧ timerTestBus.io 0x05 = 0xFF ∧
    timerTestBus.io 0x06 = 0x42 ∧ timerTestBus.timerCounter = 0 ∧
    ([16] : List Nat).sum = 16 ∧
    ([16].foldl Bus.updateTimer timerTestBus).io 0x05 = 0x42 ∧
    ([16].foldl Bus.updateTimer timerTestBus).io 0x0F &&& 0x04 ≠ 0 := by
  have h := claim_C4_timer_overflow [16] timerTestBus
    (by decide) (by decide) (by decide) rfl (by decide)
  exact ⟨by decide, by decide, by decide, rfl, by decide, h.1.1, h.1.2⟩

/-- C5: after writing a page to 0xFF46 and feeding updateDMA at least 640
clocks in total, the DMA deactivates and every OAM byte i below 160 equals
the bus read of page shifted left 8 plus i, evaluated against the state at
the moment of the copy. -/
theorem claim_C5_dma_copy (s : Bus) (page : Nat) (cys : List Nat)
    (hpage : page < 256) (hsum : 640 ≤ cys.sum) :
    (cys.foldl Bus.updateDMA (Bus.write s 0xFF46 page)).dmaActive = false ∧
    ∀ i, i < 160 →
      (cys.foldl Bus.updateDMA (Bus.write s 0xFF46 page)).oam i =
        Bus.read (Bus.write s 0xFF46 page) ((page <<< 8) + i) := by
  obtain ⟨h1, h2⟩ := dma_fold cys (Bus.write s 0xFF46 page)
    (by rw [write_ff46]) (by rw [write_ff46]; norm_num)
    (by rw [write_ff46]; dsimp only; omega)
  refine ⟨h1, ?_⟩
  intro i hi
  exact h2 i hi

theorem claim_C5_witness :
    (0x12 : Nat) < 256 ∧ (640 : Nat) ≤ ([640] : List Nat).sum ∧
    ([640].foldl Bus.updateDMA (Bus.write Memory.init 0xFF46 0x12)).dmaActive = false ∧
    ([640].foldl Bus.updateDMA (Bus.write Memory.init 0xFF46 0x12)).oam 5 =
      Bus.read (Bus.write Memory.init 0xFF46 0x12) ((0x12 <<< 8) + 5) := by
  have h := claim_C5_dma_copy Memory.init 0x12 [640] (by decide) (by decide)
  exact ⟨by decide, by decide, h.1, h.2 5 (by decide)⟩

set_option maxHeartbeats 3200000 in
/-- C6 (code bug): with an EI opcode at PC = 0x0100 and a VBlank interrupt
already pending and enabled, the step that executes EI leaves IME false with
the enable scheduled, but the very next step dispatches the interrupt (20
clocks, PC becomes 0x40, SP drops to 0xFFFC) before the instruction
following EI gets to execute, contradicting the claim that a pending
interrupt is never dispatched before that instruction. -/
theorem claim_C6_ei_bug :
    (CPU.step CPU.reset eiTestBus).1.ime = false ∧
    (CPU.step CPU.reset eiTestBus).1.imeScheduled = true ∧
    (CPU.step CPU.reset eiTestBus).1.pc = 0x0101 ∧
    (CPU.step CPU.reset eiTestBus).2.2 = 4 ∧
    Bus.getIF eiTestBus &&& Bus.getIE eiTestBus &&& 0x1F = 1 ∧
    (CPU.step (CPU.step CPU.reset eiTestBus).1 (CPU.step CPU.reset eiTestBus).2.1).2.2 = 20 ∧
    (CPU.step (CPU.step CPU.reset eiTestBus).1 (CPU.step CPU.reset eiTestBus).2.1).1.pc = 0x40 ∧
    (CPU.step (CPU.step CPU.reset eiTestBus).1 (CPU.step CPU.reset eiTestBus).2.1).1.sp = 0xFFFC := by
  decide

/-- C7 counterexample: a write to NR10 (register 0x10) while the APU master
enable is off still lands in the register file, so the write is not
ignored. -/
theorem claim_C7_counterexample :
    ({ APU.reset with masterEnable := false } : APUState).masterEnable = false ∧
    (APU.writeRegister { APU.reset with masterEnable := false } 0x10 0x77).registers 0 = 0x77 := by
  decide

set_option maxHeartbeats 3200000 in
/-- C7 (amended): APU register writes are insensitive to the master-enable
flag: for every register in NR10 - NR25 and in wave RAM, writing with the
flag at any value b produces exactly the state of the same write with the
flag's original value, with the flag restored to b; there is no gating at
all. -/
theorem claim_C7_amended (s : APUState) (b : Bool) (reg val : Nat) :
    (0x10 ≤ reg → reg ≤ 0x25 →
      APU.writeRegister { s with masterEnable := b } reg val =
        { APU.writeRegister s reg val with masterEnable := b }) ∧
    (0x30 ≤ reg → reg ≤ 0x3F →
      APU.writeRegister { s with masterEnable := b } reg val =
        { APU.writeRegister s reg val with masterEnable := b }) := by
  constructor
  · intro h1 h2
    interval_cases reg <;>
      first
        | rfl
        | (simp [APU.writeRegister, APU.triggerChannel1, APU.triggerChannel2,
                 APU.triggerChannel3, APU.triggerChannel4]
           try (split_ifs <;> rfl))
  · intro h1 h2
    interval_cases reg <;> rfl

theorem claim_C7_witness :
    ((0x10 : Nat) ≤ 0x10 ∧ (0x10 : Nat) ≤ 0x25) ∧
    APU.writeRegister { APU.reset with masterEnable := false } 0x10 0x77 =
      { APU.writeRegister APU.reset 0x10 0x77 with masterEnable := false } :=
  ⟨⟨by decide, by decide⟩,
   (claim_C7_amended APU.reset false 0x10 0x77).1 (by decide) (by decide)⟩

/-- C8 counterexample: address 0xFEA0 is outside the ROM-bank-control
region, is not 0xFF04 and is not an I/O register at all, yet writing 0x12
there and reading it back yields 0xFF, because writes to the unusable
region are dropped and reads of it are hardwired to 0xFF. -/
theorem claim_C8_counterexample :
    Bus.read (Bus.write Memory.init 0xFEA0 0x12) 0xFEA0 = 0xFF := by decide

set_option maxHeartbeats 3200000 in
set_option maxRecDepth 4000 in
/-- C8 (amended): the write-then-read round trip returns the written value
on the addresses of roundTripAddr: VRAM, mapped-and-enabled external RAM,
WRAM with its echo, OAM, the I/O registers other than the joypad latch,
DIV, STAT, LY and 0xFF26 - 0xFF2F, and HRAM with IE — but not on the
unusable region 0xFEA0 - 0xFEFF, nor on unmapped or disabled external
RAM, which the original claim wrongly included. -/
theorem claim_C8_amended (s : Bus) (addr val : Nat) (hrt : roundTripAddr s addr) :
    Bus.read (Bus.write s addr val) addr = val := by
  rcases hrt with ⟨hlo, hhi⟩ | ⟨hlo, hhi, hen, hsz, hin⟩ | ⟨hlo, hhi⟩ |
    ⟨hlo, hhi, hn0, hn4, hn41, hn44, hnapu⟩ | ⟨hlo, hhi⟩
  · have hw : Bus.write s addr val =
        { s with vram := Function.update s.vram (addr - 0x8000) val } := by
      unfold Bus.write
      rw [if_neg (by omega : ¬ addr < 0x8000), if_pos (by omega : addr < 0xA000)]
    rw [hw]
    unfold Bus.read
    rw [if_neg (by omega : ¬ addr < 0x4000), if_neg (by omega : ¬ addr < 0x8000),
      if_pos (by omega : addr < 0xA000)]
    try dsimp only
    rw [Function.update_same]
  · have hw : Bus.write s addr val =
        { s with extRam := Function.update s.extRam
                   (s.ramBank * 0x2000 + (addr - 0xA000)) val } := by
      unfold Bus.write
      rw [if_neg (by omega : ¬ addr < 0x8000), if_neg (by omega : ¬ addr < 0xA000),
        if_pos (by omega : addr < 0xC000)]
      rw [if_pos (show s.ramEnabled = true ∧ s.extRamSize ≠ 0 from ⟨hen, hsz⟩)]
      try dsimp only
      rw [if_pos hin]
    rw [hw]
    unfold Bus.read
    rw [if_neg (by omega : ¬ addr < 0x4000), if_neg (by omega : ¬ addr < 0x8000),
      if_neg (by omega : ¬ addr < 0xA000), if_pos (by omega : addr < 0xC000)]
    try dsimp only
    rw [if_pos (show s.ramEnabled = true ∧ s.extRamSize ≠ 0 from ⟨hen, hsz⟩)]
    try dsimp only
    rw [if_pos hin, Function.update_same]
  · rcases Nat.lt_or_ge addr 0xE000 with h1 | h1
    · have hw : Bus.write s addr val =
          { s with wram := Function.update s.wram (addr - 0xC000) val } := by
        unfold Bus.write
        rw [if_neg (by omega : ¬ addr < 0x8000), if_neg (by omega : ¬ addr < 0xA000),
          if_neg (by omega : ¬ addr < 0xC000), if_pos (by omega : addr < 0xE000)]
      rw [hw]
      unfold Bus.read
      rw [if_neg (by omega : ¬ addr < 0x4000), if_neg (by omega : ¬ addr < 0x8000),
        if_neg (by omega : ¬ addr < 0xA000), if_neg (by omega : ¬ addr < 0xC000),
        if_pos (by omega : addr < 0xE000)]
      try dsimp only
      rw [Function.update_same]
    rcases Nat.lt_or_ge addr 0xFE00 with h2 | h2
    · have hw : Bus.write s addr val =
          { s with wram := Function.update s.wram (addr - 0xE000) val } := by
        unfold Bus.write
        rw [if_neg (by omega : ¬ addr < 0x8000), if_neg (by omega : ¬ addr < 0xA000),
          if_neg (by omega : ¬ addr < 0xC000), if_neg (by omega : ¬ addr < 0xE000),
          if_pos (by omega : addr < 0xFE00)]
      rw [hw]
      unfold Bus.read
      rw [if_neg (by omega : ¬ addr < 0x4000), if_neg (by omega : ¬ addr < 0x8000),
        if_neg (by omega : ¬ addr < 0xA000), if_neg (by omega : ¬ addr < 0xC000),
        if_neg (by omega : ¬ addr < 0xE000), if_pos (by omega : addr < 0xFE00)]
      try dsimp only
      rw [Function.update_same]
    · have hw : Bus.write s addr val =
          { s with oam := Function.update s.oam (addr - 0xFE00) val } := by
        unfold Bus.write
        rw [if_neg (by omega : ¬ addr < 0x8000), if_neg (by omega : ¬ addr < 0xA000),
          if_neg (by omega : ¬ addr < 0xC000), if_neg (by omega : ¬ addr < 0xE000),
          if_neg (by omega : ¬ addr < 0xFE00), if_pos (by omega : addr < 0xFEA0)]
      rw [hw]
      unfold Bus.read
      rw [if_neg (by omega : ¬ addr < 0x4000), if_neg (by omega : ¬ addr < 0x8000),
        if_neg (by omega : ¬ addr < 0xA000), if_neg (by omega : ¬ addr < 0xC000),
        if_neg (by omega : ¬ addr < 0xE000), if_neg (by omega : ¬ addr < 0xFE00),
        if_pos (by omega : addr < 0xFEA0)]
      try dsimp only
      rw [Function.update_same]
  · by_cases r40 : addr - 0xFF00 = 0x40
    · rcases hpl : PPU.writeLCDC s.ppu s.io val with ⟨p2, io2⟩
      have hw : Bus.write s addr val =
          { s with ppu := p2, io := Function.update io2 0x40 val } := by
        unfold Bus.write
        rw [if_neg (by omega : ¬ addr < 0x8000), if_neg (by omega : ¬ addr < 0xA000),
          if_neg (by omega : ¬ addr < 0xC000), if_neg (by omega : ¬ addr < 0xE000),
          if_neg (by omega : ¬ addr < 0xFE00), if_neg (by omega : ¬ addr < 0xFEA0),
          if_neg (by omega : ¬ addr < 0xFF00), if_pos (by omega : addr < 0xFF80),
          if_neg (by omega : ¬ addr - 0xFF00 = 0x00), if_neg (by omega : ¬ addr - 0xFF00 = 0x04),
          if_pos r40, hpl]
      rw [hw]
      unfold Bus.read
      rw [if_neg (by omega : ¬ addr < 0x4000), if_neg (by omega : ¬ addr < 0x8000),
        if_neg (by omega : ¬ addr < 0xA000), if_neg (by omega : ¬ addr < 0xC000),
        if_neg (by omega : ¬ addr < 0xE000), if_neg (by omega : ¬ addr < 0xFE00),
        if_neg (by omega : ¬ addr < 0xFEA0), if_neg (by omega : ¬ addr < 0xFF00),
        if_pos (by omega : addr < 0xFF80), if_neg (by omega : ¬ addr - 0xFF00 = 0x00),
        if_neg (by omega : ¬ addr - 0xFF00 = 0x44), if_neg (by omega : ¬ addr - 0xFF00 = 0x41),
        if_neg (by omega : ¬ (0x10 ≤ addr - 0xFF00 ∧ addr - 0xFF00 ≤ 0x3F))]
      try dsimp only
      rw [show addr - 0xFF00 = 0x40 from r40, Function.update_same]
    by_cases r46 : addr - 0xFF00 = 0x46
    · have hw : Bus.write s addr val =
          { s with dmaActive := true, dmaCycles := 0, dmaSource := val <<< 8,
                   io := Function.update s.io 0x46 val } := by
        unfold Bus.write
        rw [if_neg (by omega : ¬ addr < 0x8000), if_neg (by omega : ¬ addr < 0xA000),
          if_neg (by omega : ¬ addr < 0xC000), if_neg (by omega : ¬ addr < 0xE000),
          if_neg (by omega : ¬ addr < 0xFE00), if_neg (by omega : ¬ addr < 0xFEA0),
          if_neg (by omega : ¬ addr < 0xFF00), if_pos (by omega : addr < 0xFF80),
          if_neg (by omega : ¬ addr - 0xFF00 = 0x00), if_neg (by omega : ¬ addr - 0xFF00 = 0x04),
          if_neg r40, if_neg (by omega : ¬ addr - 0xFF00 = 0x41),
          if_neg (by omega : ¬ addr - 0xFF00 = 0x44), if_pos r46]
      rw [hw]
      unfold Bus.read
      rw [if_neg (by omega : ¬ addr < 0x4000), if_neg (by omega : ¬ addr < 0x8000),
        if_neg (by omega : ¬ addr < 0xA000), if_neg (by omega : ¬ addr < 0xC000),
        if_neg (by omega : ¬ addr < 0xE000), if_neg (by omega : ¬ addr < 0xFE00),
        if_neg (by omega : ¬ addr < 0xFEA0), if_neg (by omega : ¬ addr < 0xFF00),
        if_pos (by omega : addr < 0xFF80), if_neg (by omega : ¬ addr - 0xFF00 = 0x00),
        if_neg (by omega : ¬ addr - 0xFF00 = 0x44), if_neg (by omega : ¬ addr - 0xFF00 = 0x41),
        if_neg (by omega : ¬ (0x10 ≤ addr - 0xFF00 ∧ addr - 0xFF00 ≤ 0x3F))]
      try dsimp only
      rw [show addr - 0xFF00 = 0x46 from r46, Function.update_same]
    by_cases rap : 0x10 ≤ addr - 0xFF00 ∧ addr - 0xFF00 ≤ 0x3F
    · have hw : Bus.write s addr val =
          { s with apu := APU.writeRegister s.apu (addr - 0xFF00) val,
                   io := Function.update s.io (addr - 0xFF00) val } := by
        unfold Bus.write
        rw [if_neg (by omega : ¬ addr < 0x8000), if_neg (by omega : ¬ addr < 0xA000),
          if_neg (by omega : ¬ addr < 0xC000), if_neg (by omega : ¬ addr < 0xE000),
          if_neg (by omega : ¬ addr < 0xFE00), if_neg (by omega : ¬ addr < 0xFEA0),
          if_neg (by omega : ¬ addr < 0xFF00), if_pos (by omega : addr < 0xFF80),
          if_neg (by omega : ¬ addr - 0xFF00 = 0x00), if_neg (by omega : ¬ addr - 0xFF00 = 0x04),
          if_neg r40, if_neg (by omega : ¬ addr - 0xFF00 = 0x41),
          if_neg (by omega : ¬ addr - 0xFF00 = 0x44), if_neg r46, if_pos rap]
      rw [hw]
      unfold Bus.read
      rw [if_neg (by omega : ¬ addr < 0x4000), if_neg (by omega : ¬ addr < 0x8000),
        if_neg (by omega : ¬ addr < 0xA000), if_neg (by omega : ¬ addr < 0xC000),
        if_neg (by omega : ¬ addr < 0xE000), if_neg (by omega : ¬ addr < 0xFE00),
        if_neg (by omega : ¬ addr < 0xFEA0), if_neg (by omega : ¬ addr < 0xFF00),
        if_pos (by omega : addr < 0xFF80), if_neg (by omega : ¬ addr - 0xFF00 = 0x00),
        if_neg (by omega : ¬ addr - 0xFF00 = 0x44), if_neg (by omega : ¬ addr - 0xFF00 = 0x41),
        if_pos rap]
      try dsimp only
      exact apu_write_read_roundtrip s.apu (addr - 0xFF00) val rap.1 rap.2 (by omega)
    · have hw : Bus.write s addr val =
          { s with io := Function.update s.io (addr - 0xFF00) val } := by
        unfold Bus.write
        rw [if_neg (by omega : ¬ addr < 0x8000), if_neg (by omega : ¬ addr < 0xA000),
          if_neg (by omega : ¬ addr < 0xC000), if_neg (by omega : ¬ addr < 0xE000),
          if_neg (by omega : ¬ addr < 0xFE00), if_neg (by omega : ¬ addr < 0xFEA0),
          if_neg (by omega : ¬ addr < 0xFF00), if_pos (by omega : addr < 0xFF80),
          if_neg (by omega : ¬ addr - 0xFF00 = 0x00), if_neg (by omega : ¬ addr - 0xFF00 = 0x04),
          if_neg r40, if_neg (by omega : ¬ addr - 0xFF00 = 0x41),
          if_neg (by omega : ¬ addr - 0xFF00 = 0x44), if_neg r46, if_neg rap]
      rw [hw]
      unfold Bus.read
      rw [if_neg (by omega : ¬ addr < 0x4000), if_neg (by omega : ¬ addr < 0x8000),
        if_neg (by omega : ¬ addr < 0xA000), if_neg (by omega : ¬ addr < 0xC000),
        if_neg (by omega : ¬ addr < 0xE000), if_neg (by omega : ¬ addr < 0xFE00),
        if_neg (by omega : ¬ addr < 0xFEA0), if_neg (by omega : ¬ addr < 0xFF00),
        if_pos (by omega : addr < 0xFF80), if_neg (by omega : ¬ addr - 0xFF00 = 0x00),
        if_neg (by omega : ¬ addr - 0xFF00 = 0x44), if_neg (by omega : ¬ addr - 0xFF00 = 0x41),
        if_neg rap]
      try dsimp only
      rw [Function.update_same]
  · rcases Nat.lt_or_ge addr 0xFFFF with h1 | h1
    · have hw : Bus.write s addr val =
          { s with hram := Function.update s.hram (addr - 0xFF80) val } := by
        unfold Bus.write
        rw [if_neg (by omega : ¬ addr < 0x8000), if_neg (by omega : ¬ addr < 0xA000),
          if_neg (by omega : ¬ addr < 0xC000), if_neg (by omega : ¬ addr < 0xE000),
          if_neg (by omega : ¬ addr < 0xFE00), if_neg (by omega : ¬ addr < 0xFEA0),
          if_neg (by omega : ¬ addr < 0xFF00), if_neg (by omega : ¬ addr < 0xFF80),
          if_pos h1]
      rw [hw]
      unfold Bus.read
      rw [if_neg (by omega : ¬ addr < 0x4000), if_neg (by omega : ¬ addr < 0x8000),
        if_neg (by omega : ¬ addr < 0xA000), if_neg (by omega : ¬ addr < 0xC000),
        if_neg (by omega : ¬ addr < 0xE000), if_neg (by omega : ¬ addr < 0xFE00),
        if_neg (by omega : ¬ addr < 0xFEA0), if_neg (by omega : ¬ addr < 0xFF00),
        if_neg (by omega : ¬ addr < 0xFF80), if_pos h1]
      try dsimp only
      rw [Function.update_same]
    · have hw : Bus.write s addr val = { s with ie := val } := by
        unfold Bus.write
        rw [if_neg (by omega : ¬ addr < 0x8000), if_neg (by omega : ¬ addr < 0xA000),
          if_neg (by omega : ¬ addr < 0xC000), if_neg (by omega : ¬ addr < 0xE000),
          if_neg (by omega : ¬ addr < 0xFE00), if_neg (by omega : ¬ addr < 0xFEA0),
          if_neg (by omega : ¬ addr < 0xFF00), if_neg (by omega : ¬ addr < 0xFF80),
          if_neg (by omega : ¬ addr < 0xFFFF)]
      rw [hw]
      unfold Bus.read
      rw [if_neg (by omega : ¬ addr < 0x4000), if_neg (by omega : ¬ addr < 0x8000),
        if_neg (by omega : ¬ addr < 0xA000), if_neg (by omega : ¬ addr < 0xC000),
        if_neg (by omega : ¬ addr < 0xE000), if_neg (by omega : ¬ addr < 0xFE00),
        if_neg (by omega : ¬ addr < 0xFEA0), if_neg (by omega : ¬ addr < 0xFF00),
        if_neg (by omega : ¬ addr < 0xFF80), if_neg (by omega : ¬ addr < 0xFFFF)]

theorem claim_C8_witness :
    roundTripAddr Memory.init 0x8123 ∧
    Bus.read (Bus.write Memory.init 0x8123 0xAB) 0x8123 = 0xAB :=
  ⟨by decide, claim_C8_amended Memory.init 0x8123 0xAB (by decide)⟩

/-- C9 counterexample: a present but empty ROM file — far shorter than the
header — still loads successfully and the emulator runs with exit code 0,
so a short file does not make loadROM fail. -/
theorem claim_C9_counterexample :
    (Memory.loadROM Memory.init (some [])).2 = true ∧
    mainExitCode true true (some []) = 0 := by decide

/-- C9 (amended): loadROM fails exactly when the file cannot be opened at
all — never merely because it is short — and only that failure propagates
to a non-zero exit code from main. -/
theorem claim_C9_amended (s : Bus) (file : Option (List Nat)) :
    ((Memory.loadROM s file).2 = false ↔ file = none) ∧
    mainExitCode true true file = (if file = none then 1 else 0) := by
  cases file with
  | none => exact ⟨by simp [Memory.loadROM], by rfl⟩
  | some bytes =>
    constructor
    · unfold Memory.loadROM
      dsimp only
      split_ifs <;> simp
    · unfold mainExitCode
      rw [if_neg (by simp), if_neg (by simp)]
      have h2 : (Memory.loadROM Memory.init (some bytes)).2 = true := by
        unfold Memory.loadROM
        dsimp only
        split_ifs <;> rfl
      rw [if_neg (by rw [h2]; simp), if_neg (by simp)]

/-- C10: on an MBC3 cartridge, a write into 0x4000 - 0x5FFF whose value
lies in 0x04 - 0x07 or above 0x0C matches none of the RAM-bank or RTC
register selections and leaves the bus state entirely unchanged. -/
theorem claim_C10_mbc3_inert (s : Bus) (addr val : Nat) (hmbc : s.mbcType = 3)
    (hlo : 0x4000 ≤ addr) (hhi : addr < 0x6000)
    (hval : (4 ≤ val ∧ val ≤ 7) ∨ 0x0C < val) :
    Bus.handleMBCWrite s addr val = s := by
  unfold Bus.handleMBCWrite
  rw [if_neg (by omega), if_neg (by omega), if_pos hmbc,
      if_neg (by omega : ¬ addr < 0x2000), if_neg (by omega : ¬ addr < 0x4000),
      if_pos hhi, if_neg (by omega : ¬ val ≤ 0x03),
      if_neg (by omega : ¬ (0x08 ≤ val ∧ val ≤ 0x0C))]

theorem claim_C10_witness :
    ({ Memory.init with mbcType := 3 } : Bus).mbcType = 3 ∧
    ((0x4000 : Nat) ≤ 0x4000) ∧ ((0x4000 : Nat) < 0x6000) ∧
    ((4 ≤ (0x04 : Nat) ∧ (0x04 : Nat) ≤ 7) ∨ (0x0C : Nat) < 0x04) ∧
    Bus.handleMBCWrite { Memory.init with mbcType := 3 } 0x4000 0x04 =
      { Memory.init with mbcType := 3 } :=
  ⟨rfl, by decide, by decide, Or.inl (by decide),
   claim_C10_mbc3_inert { Memory.init with mbcType := 3 } 0x4000 0x04 rfl
     (by decide) (by decide) (Or.inl (by decide))⟩
